import Mathlib

/-
Verification development for the mouse-keys repository (src/py.py).

The file shallowly embeds the two core components of the program:

* the translation worker (movement_worker, src/py.py lines 610-847):
  a per-tick pure function on an explicit worker state, taking the
  snapshot of the pressed-key set and the current time, and returning
  the new state together with the list of synthetic input actions
  emitted during that tick;

* the low-level keyboard hook callback (_low_level_keyboard_proc,
  src/py.py lines 425-507): a pure function on an explicit hook state,
  taking one key event and a fault oracle describing which fallible
  external calls raise during the callback, and returning the new
  state, the emitted side effects, and the consume/forward decision.

Python floats only appear as the tick clock and the scroll interval;
time is modelled as integer milliseconds (SCROLL_INTERVAL 0.10 s = 100).
Python round() (banker's rounding) on STEP * 0.25 is modelled exactly
by roundQuarterHalfEven.
-/

set_option maxRecDepth 8000

namespace MouseKeys

/-! Virtual-key codes used by the script (src/py.py lines 78-106). -/

def VK_W : Nat := 0x57
def VK_A : Nat := 0x41
def VK_S : Nat := 0x53
def VK_D : Nat := 0x44
def VK_LSHIFT : Nat := 0xA0
def VK_RSHIFT : Nat := 0xA1
def VK_LCONTROL : Nat := 0xA2
def VK_RCONTROL : Nat := 0xA3
def VK_CONTROL : Nat := 0x11
def VK_LMENU : Nat := 0xA4
def VK_RMENU : Nat := 0xA5
def VK_MENU : Nat := 0x12
def VK_TAB : Nat := 0x09
def VK_1 : Nat := 0x31
def VK_2 : Nat := 0x32
def VK_NUMPAD1 : Nat := 0x61
def VK_NUMPAD2 : Nat := 0x62
def VK_3 : Nat := 0x33
def VK_4 : Nat := 0x34
def VK_NUMPAD3 : Nat := 0x63
def VK_NUMPAD4 : Nat := 0x64
def VK_OEM_MINUS : Nat := 0xBD
def VK_SUBTRACT : Nat := 0x6D
def VK_OEM_PLUS : Nat := 0xBB
def VK_ADD : Nat := 0x6B
def VK_CAPITAL : Nat := 0x14
def VK_OEM_3 : Nat := 0xC0
def VK_RETURN : Nat := 0x0D
def VK_F : Nat := 0x46
def VK_LEFT : Nat := 0x25
def VK_UP : Nat := 0x26
def VK_RIGHT : Nat := 0x27
def VK_DOWN : Nat := 0x28
def VK_LWIN : Nat := 0x5B
def VK_RWIN : Nat := 0x5C
def VK_OEM_4 : Nat := 0xDB
def VK_OEM_6 : Nat := 0xDD

/-! Window-message constants (src/py.py lines 70-73). -/

def WM_KEYDOWN : Nat := 0x0100
def WM_KEYUP : Nat := 0x0101
def WM_SYSKEYDOWN : Nat := 0x0104
def WM_SYSKEYUP : Nat := 0x0105

/-- WHEEL_DELTA (src/py.py line 75); the per-notch scroll amount. -/
def SCROLL_AMOUNT : Int := 120

/-- SCROLL_INTERVAL = 0.10 s (src/py.py line 619), in milliseconds. -/
def SCROLL_INTERVAL : Int := 100

/-- MIN_STEP (src/py.py line 615). -/
def MIN_STEP : Nat := 1

/-- MAX_STEP (src/py.py line 615). -/
def MAX_STEP : Nat := 50

/-- A snapshot of the pressed-key set: the set is used only through
membership tests, so a list of virtual-key codes suffices. -/
abbrev Snap := List Nat

/-- Membership test on a key set (Python: vk in snapshot). -/
def hasKey (snap : Snap) (vk : Nat) : Bool := snap.contains vk

/-! Modifier detection, identical in the hook (src/py.py lines 445-449)
and in the worker (lines 673-675, 734). -/

def ctrlHeld (keys : Snap) : Bool :=
  hasKey keys VK_LCONTROL || hasKey keys VK_RCONTROL || hasKey keys VK_CONTROL

def altHeld (keys : Snap) : Bool :=
  hasKey keys VK_LMENU || hasKey keys VK_RMENU || hasKey keys VK_MENU

def shiftHeld (keys : Snap) : Bool :=
  hasKey keys VK_LSHIFT || hasKey keys VK_RSHIFT

def winHeld (keys : Snap) : Bool :=
  hasKey keys VK_LWIN || hasKey keys VK_RWIN

/-! Arrow-key aliasing (src/py.py lines 666-670): arrows are unioned
into the snapshot as W/A/S/D; only the four WASD memberships of the
resulting effective set are ever queried. -/

def effW (snap : Snap) : Bool := hasKey snap VK_W || hasKey snap VK_UP
def effA (snap : Snap) : Bool := hasKey snap VK_A || hasKey snap VK_LEFT
def effS (snap : Snap) : Bool := hasKey snap VK_S || hasKey snap VK_DOWN
def effD (snap : Snap) : Bool := hasKey snap VK_D || hasKey snap VK_RIGHT

/-- any(k in effective for k in (VK_W, VK_A, VK_S, VK_D)), line 777. -/
def wasdOrArrowsHeld (snap : Snap) : Bool :=
  effW snap || effA snap || effS snap || effD snap

/-- Python3 round() applied to n * 0.25 for a nonnegative integer n.
Multiples of 0.25 are exact binary floats, so round() performs exact
half-to-even (banker's) rounding of n / 4. -/
def roundQuarterHalfEven (n : Nat) : Nat :=
  n / 4 + (if n % 4 = 3 then 1 else if n % 4 = 2 then n / 4 % 2 else 0)

/-- step_effective = max(1, int(round(STEP * speed_multiplier))) with
speed_multiplier = 0.25 if shift else 1.0 (src/py.py lines 736-737). -/
def stepEffective (step : Nat) (shiftNow : Bool) : Nat :=
  max 1 (if shiftNow then roundQuarterHalfEven step else step)

/-- Virtual-desktop bounding rectangle as queried once by the worker
(src/py.py lines 626-631). -/
structure Screen where
  left : Int
  top : Int
  width : Int
  height : Int
deriving Repr, DecidableEq

def Screen.right (scr : Screen) : Int := scr.left + scr.width - 1
def Screen.bottom (scr : Screen) : Int := scr.top + scr.height - 1

/-- nx = max(left, min(right, x + dx)) (src/py.py line 743). -/
def clampX (scr : Screen) (x : Int) : Int := max scr.left (min scr.right x)

/-- ny = max(top, min(bottom, y + dy)) (src/py.py line 744). -/
def clampY (scr : Screen) (y : Int) : Int := max scr.top (min scr.bottom y)

/-- One synthetic-input action emitted by the worker. moveTo records
the clamped absolute target handed to set_cursor_pos; clicks are the
atomic down+up pairs of the emitter; capsDoubleToggle stands for
send_caps_double_toggle (two full CapsLock press-release cycles). -/
inductive Action where
  | moveTo (x y : Int)
  | leftClick
  | leftDown
  | leftUp
  | rightClick
  | middleClick
  | scrollV (d : Int)
  | scrollH (d : Int)
  | capsDoubleToggle
deriving Repr, DecidableEq

/-- The worker's mutable state: the active toggle, the drag flag, the
speed STEP, the cursor position (the worker reads it back with
get_cursor_pos; only its own moves change it in this closed model),
and the edge trackers declared at src/py.py lines 648-656. -/
structure WorkerState where
  active : Bool
  dragging : Bool
  step : Nat
  cursorX : Int
  cursorY : Int
  prevShift : Bool
  prevScrollV : Bool
  prevScrollH : Bool
  nextScrollV : Int
  nextScrollH : Int
  prevPlus : Bool
  prevMinus : Bool
  prevCaps : Bool
  prevF : Bool
  prevBacktick : Bool
deriving Repr, DecidableEq

/-- Worker state at program start: active = True (line 208),
dragging_active = False (line 215), STEP = 4 (line 613), all edge
trackers False (lines 648-656); the cursor position is a parameter. -/
def initialWorkerState (cx cy : Int) : WorkerState :=
  { active := true, dragging := false, step := 4,
    cursorX := cx, cursorY := cy,
    prevShift := false, prevScrollV := false, prevScrollH := false,
    nextScrollV := 0, nextScrollH := 0,
    prevPlus := false, prevMinus := false,
    prevCaps := false, prevF := false, prevBacktick := false }

/-- Tracker reset performed both in the Ctrl/Win passthrough branch
(src/py.py lines 706-712) and in the inactive branch (lines 823-829). -/
def resetTrackers (s : WorkerState) : WorkerState :=
  { s with prevShift := false, prevScrollV := false, prevScrollH := false,
           nextScrollV := 0, nextScrollH := 0,
           prevCaps := false, prevF := false }

/-- if dragging_active: send_left_up(); dragging_active = False
(src/py.py lines 714-719, 725-730, 830-835). -/
def forceReleaseDrag (s : WorkerState) : WorkerState × List Action :=
  if s.dragging then ({ s with dragging := false }, [Action.leftUp])
  else (s, [])

/-- Backtick toggle with edge detection (src/py.py lines 678-689):
on the press edge flip active, and when turning OFF release a held
drag; prev_backtick is then updated unconditionally. -/
def tickToggle (s : WorkerState) (snap : Snap) : WorkerState × List Action :=
  if hasKey snap VK_OEM_3 && !s.prevBacktick then
    let s1 : WorkerState := { s with active := !s.active }
    if !s1.active && s1.dragging then
      ({ s1 with dragging := false, prevBacktick := true }, [Action.leftUp])
    else
      ({ s1 with prevBacktick := true }, [])
  else
    ({ s with prevBacktick := hasKey snap VK_OEM_3 }, [])

/-- Speed adjustment on plus/minus press edges, only while active
(src/py.py lines 692-701); prev trackers updated unconditionally. -/
def tickSpeed (s : WorkerState) (snap : Snap) : WorkerState :=
  let plusNow := hasKey snap VK_OEM_PLUS || hasKey snap VK_ADD
  let minusNow := hasKey snap VK_OEM_MINUS || hasKey snap VK_SUBTRACT
  let s1 :=
    if s.active then
      let s1 := if plusNow && !s.prevPlus then
                  { s with step := min MAX_STEP (s.step + 1) } else s
      if minusNow && !s1.prevMinus then
        { s1 with step := max MIN_STEP (s1.step - 1) } else s1
    else s
  { s1 with prevPlus := plusNow, prevMinus := minusNow }

/-- dx of the tick (src/py.py line 739), before clamping. -/
def tickDx (s : WorkerState) (snap : Snap) : Int :=
  (stepEffective s.step (shiftHeld snap) : Int) *
    ((if effD snap then 1 else 0) - (if effA snap then 1 else 0))

/-- dy of the tick (src/py.py line 740), before clamping. -/
def tickDy (s : WorkerState) (snap : Snap) : Int :=
  (stepEffective s.step (shiftHeld snap) : Int) *
    ((if effS snap then 1 else 0) - (if effW snap then 1 else 0))

/-- Cursor movement (src/py.py lines 733-745): when the delta is
nonzero, clamp the target to the virtual-screen rectangle and emit
one absolute move. -/
def movePhase (scr : Screen) (s : WorkerState) (snap : Snap) :
    WorkerState × List Action :=
  if tickDx s snap ≠ 0 ∨ tickDy s snap ≠ 0 then
    let nx := clampX scr (s.cursorX + tickDx s snap)
    let ny := clampY scr (s.cursorY + tickDy s snap)
    ({ s with cursorX := nx, cursorY := ny }, [Action.moveTo nx ny])
  else (s, [])

/-- scroll_dir_v (src/py.py lines 748-750): 1 up, -1 down, 0 when
neither or both of the two vertical scroll keys are held. -/
def scrollDirV (snap : Snap) : Int :=
  let upP := hasKey snap VK_1 || hasKey snap VK_NUMPAD1
  let downP := hasKey snap VK_2 || hasKey snap VK_NUMPAD2
  if upP && !downP then 1 else if downP && !upP then -1 else 0

/-- scroll_dir_h (src/py.py lines 760-763): 1 right, -1 left. -/
def scrollDirH (snap : Snap) : Int :=
  let leftP := hasKey snap VK_3 || hasKey snap VK_NUMPAD3
  let rightP := hasKey snap VK_4 || hasKey snap VK_NUMPAD4
  if rightP && !leftP then 1 else if leftP && !rightP then -1 else 0

/-- Vertical scroll with rate limiting (src/py.py lines 752-757):
fire immediately on a fresh hold or when the interval elapsed. -/
def scrollVPhase (s : WorkerState) (snap : Snap) (now : Int) :
    WorkerState × List Action :=
  if scrollDirV snap ≠ 0 then
    if !s.prevScrollV || s.nextScrollV ≤ now then
      ({ s with nextScrollV := now + SCROLL_INTERVAL },
       [Action.scrollV (scrollDirV snap * SCROLL_AMOUNT)])
    else (s, [])
  else ({ s with nextScrollV := 0 }, [])

/-- Horizontal scroll with rate limiting (src/py.py lines 765-770). -/
def scrollHPhase (s : WorkerState) (snap : Snap) (now : Int) :
    WorkerState × List Action :=
  if scrollDirH snap ≠ 0 then
    if !s.prevScrollH || s.nextScrollH ≤ now then
      ({ s with nextScrollH := now + SCROLL_INTERVAL },
       [Action.scrollH (scrollDirH snap * SCROLL_AMOUNT)])
    else (s, [])
  else ({ s with nextScrollH := 0 }, [])

/-- start_drag_condition (src/py.py line 778). -/
def startDragCond (snap : Snap) : Bool :=
  (hasKey snap VK_TAB && (shiftHeld snap || wasdOrArrowsHeld snap))
    && !(altHeld snap)

/-- Shift click on the press edge, skipped when a movement key is
held, a drag is starting, or a drag is active (src/py.py lines 781-783). -/
def clickActs (s : WorkerState) (snap : Snap) : List Action :=
  if shiftHeld snap && !s.prevShift then
    if !(wasdOrArrowsHeld snap) && !(startDragCond snap) && !s.dragging then
      [Action.leftClick]
    else []
  else []

/-- Tracker commits at src/py.py lines 784-786. -/
def shiftScrollCommit (s : WorkerState) (snap : Snap) : WorkerState :=
  { s with prevShift := shiftHeld snap,
           prevScrollV := decide (scrollDirV snap ≠ 0),
           prevScrollH := decide (scrollDirH snap ≠ 0) }

/-- Drag state machine (src/py.py lines 789-801): start on the
condition when not dragging; stop when dragging and Tab released or
Alt held. -/
def dragPhase (s : WorkerState) (snap : Snap) : WorkerState × List Action :=
  if !s.dragging && startDragCond snap then
    ({ s with dragging := true }, [Action.leftDown])
  else if s.dragging && (!(hasKey snap VK_TAB) || altHeld snap) then
    ({ s with dragging := false }, [Action.leftUp])
  else (s, [])

/-- CapsLock press edge: double toggle then right click
(src/py.py lines 804-811). -/
def capsPhase (s : WorkerState) (snap : Snap) : WorkerState × List Action :=
  ({ s with prevCaps := hasKey snap VK_CAPITAL },
   if hasKey snap VK_CAPITAL && !s.prevCaps then
     [Action.capsDoubleToggle, Action.rightClick]
   else [])

/-- F press edge: middle click (src/py.py lines 814-820). -/
def fPhase (s : WorkerState) (snap : Snap) : WorkerState × List Action :=
  ({ s with prevF := hasKey snap VK_F },
   if hasKey snap VK_F && !s.prevF then [Action.middleClick] else [])

/-- The active branch of one tick (src/py.py lines 732-820), in
program order: movement, vertical scroll, horizontal scroll, shift
click, tracker commit, drag, CapsLock, F. -/
def tickActive (scr : Screen) (s : WorkerState) (snap : Snap) (now : Int) :
    WorkerState × List Action :=
  let m := movePhase scr s snap
  let v := scrollVPhase m.1 snap now
  let h := scrollHPhase v.1 snap now
  let cl := clickActs h.1 snap
  let s1 := shiftScrollCommit h.1 snap
  let d := dragPhase s1 snap
  let c := capsPhase d.1 snap
  let f := fPhase c.1 snap
  (f.1, m.2 ++ v.2 ++ h.2 ++ cl ++ d.2 ++ c.2 ++ f.2)

/-- One full tick of movement_worker (src/py.py lines 659-837):
toggle, speed adjust, then either the Ctrl/Win passthrough branch
(reset trackers, force-release drag, skip the rest), or the Alt
drag-release followed by the active or the inactive branch. -/
def workerTick (scr : Screen) (s : WorkerState) (snap : Snap) (now : Int) :
    WorkerState × List Action :=
  let t := tickToggle s snap
  let s1 := tickSpeed t.1 snap
  if ctrlHeld snap || winHeld snap then
    let r := forceReleaseDrag (resetTrackers s1)
    (r.1, t.2 ++ r.2)
  else
    let a : WorkerState × List Action :=
      if altHeld snap then forceReleaseDrag s1 else (s1, [])
    if a.1.active then
      let b := tickActive scr a.1 snap now
      (b.1, t.2 ++ a.2 ++ b.2)
    else
      let r := forceReleaseDrag (resetTrackers a.1)
      (r.1, t.2 ++ a.2 ++ r.2)

/-- A run of the worker over a list of per-tick inputs (snapshot and
clock value), concatenating the emitted actions. -/
def workerRun (scr : Screen) (s : WorkerState) :
    List (Snap × Int) → WorkerState × List Action
  | [] => (s, [])
  | (snap, now) :: rest =>
    let p := workerTick scr s snap now
    let q := workerRun scr p.1 rest
    (q.1, p.2 ++ q.2)

/-- The worker's finally block (src/py.py lines 838-845): release a
held drag button on the way out. -/
def workerFinally (s : WorkerState) : List Action :=
  if s.dragging then [Action.leftUp] else []

/-! ## The low-level keyboard hook callback -/

/-- SCRIPT_KEYS (src/py.py lines 189-201). -/
def SCRIPT_KEYS : List Nat :=
  [VK_W, VK_A, VK_S, VK_D,
   VK_LSHIFT, VK_RSHIFT,
   VK_1, VK_2, VK_NUMPAD1, VK_NUMPAD2,
   VK_3, VK_4, VK_NUMPAD3, VK_NUMPAD4,
   VK_OEM_MINUS, VK_SUBTRACT,
   VK_OEM_PLUS, VK_ADD,
   VK_CAPITAL, VK_TAB, VK_OEM_3,
   VK_UP, VK_DOWN, VK_LEFT, VK_RIGHT,
   VK_F]

/-- vk in SCRIPT_KEYS (src/py.py line 497). -/
def isScriptKey (vk : Nat) : Bool := SCRIPT_KEYS.contains vk

/-- The reserved always-consumed set: _always_block_key
(src/py.py lines 387-392). -/
def alwaysBlockKey (vk : Nat) : Bool := vk == VK_OEM_3

/-- State shared with or read by the hook callback: the pressed-key
set (written only by the hook, lines 437-442), the active flag (read
at line 455 and 497), and the synthetic-shift record
(src/py.py lines 210-212). -/
structure HookState where
  pressed : List Nat
  active : Bool
  synthShiftActive : Bool
  synthShiftVk : Option Nat
deriving Repr, DecidableEq

/-- One raw key event as delivered to the callback: hook code, window
message, virtual-key code, and the LLKHF_INJECTED flag
(src/py.py lines 425-433). -/
structure HookEvent where
  nCode : Int
  msg : Nat
  vk : Nat
  injected : Bool
deriving Repr, DecidableEq

/-- The callback's decision: consume (return 1) or forward
(CallNextHookEx). -/
inductive Decision where
  | consume
  | forward
deriving Repr, DecidableEq

/-- Side effects the callback can emit: synthetic key transitions
(send_vk_down and send_vk_up) and the volume-set call. -/
inductive HookEffect where
  | keyDown (vk : Nat)
  | keyUp (vk : Nat)
  | volumeSet (percent : Nat)
deriving Repr, DecidableEq

/-- Fault oracle for the fallible external calls made during one
callback invocation. decode (the ctypes read of the event struct)
and volPrint (the console feedback print after a volume change) are
covered only by the outer try of the callback (src/py.py lines
427-501); synthDown, synthUp (the SendInput calls of the Shift+Enter
mechanism, lines 458-463 and 467-470) and volume (the winmm call
inside set_master_volume_percent, lines 410-422) are swallowed by
inner handlers. -/
structure Faults where
  decode : Bool
  synthDown : Bool
  synthUp : Bool
  volume : Bool
  volPrint : Bool
deriving Repr, DecidableEq

/-- The fault-free oracle. -/
def noFaults : Faults :=
  { decode := false, synthDown := false, synthUp := false,
    volume := false, volPrint := false }

/-- The oracle where exactly the inner-handled calls fault. -/
def innerFaultsOnly : Faults :=
  { decode := false, synthDown := true, synthUp := true,
    volume := true, volPrint := false }

/-- pressed_keys.add(vk) on a list-as-set. -/
def addKey (l : List Nat) (vk : Nat) : List Nat :=
  if l.contains vk then l else vk :: l

/-- pressed_keys.discard(vk) on a list-as-set. -/
def removeKey (l : List Nat) (vk : Nat) : List Nat :=
  l.filter (fun k => k != vk)

/-- Pressed-key tracking for one physical event (src/py.py
lines 436-442); injected events never mutate the set. -/
def trackKeys (pressed : List Nat) (ev : HookEvent) : List Nat :=
  if ev.injected then pressed
  else if ev.msg == WM_KEYDOWN || ev.msg == WM_SYSKEYDOWN then
    addKey pressed ev.vk
  else if ev.msg == WM_KEYUP || ev.msg == WM_SYSKEYUP then
    removeKey pressed ev.vk
  else pressed

/-- The Shift+Enter passthrough step (src/py.py lines 453-472),
applied to the post-tracking state. On a physical Enter keydown with
the system active, Ctrl not held, Shift logically held and no
synthetic shift outstanding, send a synthetic shift down for the held
side (the SendInput call may fault; the inner handler then leaves the
record unset). On a physical release of the recorded shift side,
send the synthetic shift up (fault swallowed) and clear the record. -/
def synthPhase (s : HookState) (ev : HookEvent) (ctrl : Bool) (f : Faults) :
    HookState × List HookEffect :=
  if ev.injected then (s, [])
  else if (ev.msg == WM_KEYDOWN || ev.msg == WM_SYSKEYDOWN)
        && ev.vk == VK_RETURN then
    if s.active && !ctrl && shiftHeld s.pressed && !s.synthShiftActive then
      let usedVk := if s.pressed.contains VK_LSHIFT then VK_LSHIFT
                    else if s.pressed.contains VK_RSHIFT then VK_RSHIFT
                    else VK_LSHIFT
      if f.synthDown then (s, [])
      else ({ s with synthShiftActive := true, synthShiftVk := some usedVk },
            [HookEffect.keyDown usedVk])
    else (s, [])
  else if (ev.msg == WM_KEYUP || ev.msg == WM_SYSKEYUP)
        && (ev.vk == VK_LSHIFT || ev.vk == VK_RSHIFT) then
    if s.synthShiftActive && s.synthShiftVk == some ev.vk then
      ({ s with synthShiftActive := false, synthShiftVk := none },
       if f.synthUp then [] else [HookEffect.keyUp ev.vk])
    else (s, [])
  else (s, [])

/-- Whether the event reaches the volume side-effect branch
(src/py.py lines 476-483): a physical keydown of the bracket keys. -/
def volBranchHit (ev : HookEvent) : Bool :=
  !ev.injected && (ev.msg == WM_KEYDOWN || ev.msg == WM_SYSKEYDOWN)
    && (ev.vk == VK_OEM_4 || ev.vk == VK_OEM_6)

/-- The block/forward decision (src/py.py lines 487-498): injected
events always forward; the backtick is always consumed; Tab with Alt
held forwards; other script keys are consumed exactly when the system
is active and neither Ctrl nor Win is held. -/
def hookDecision (pressed : List Nat) (active : Bool) (ev : HookEvent) :
    Decision :=
  if ev.injected then Decision.forward
  else if alwaysBlockKey ev.vk then Decision.consume
  else if ev.vk == VK_TAB && altHeld pressed then Decision.forward
  else if isScriptKey ev.vk && active && !(ctrlHeld pressed)
          && !(winHeld pressed) then Decision.consume
  else Decision.forward

/-- One invocation of _low_level_keyboard_proc (src/py.py lines
425-507). Events with negative hook code are forwarded untouched; a
fault while decoding the event aborts to the outer handler, which
forwards. Otherwise: track the key, run the Shift+Enter passthrough,
fire the volume side effect for the bracket keys (its feedback print
may fault, aborting to the outer handler after the volume call), and
finally return the block/forward decision. -/
def hookProc (s : HookState) (ev : HookEvent) (f : Faults) :
    HookState × List HookEffect × Decision :=
  if ev.nCode < 0 then (s, [], Decision.forward)
  else if f.decode then (s, [], Decision.forward)
  else
    let s1 : HookState := { s with pressed := trackKeys s.pressed ev }
    let sp := synthPhase s1 ev (ctrlHeld s1.pressed) f
    let fx2 : List HookEffect :=
      if volBranchHit ev && !f.volume then
        [HookEffect.volumeSet (if ev.vk == VK_OEM_4 then 24 else 42)]
      else []
    if volBranchHit ev && f.volPrint then
      (sp.1, sp.2 ++ fx2, Decision.forward)
    else
      (sp.1, sp.2 ++ fx2, hookDecision s1.pressed s1.active ev)

/-! ## Spec-side auxiliary definitions for the theorems -/

/-- Number of leftDown actions in a list. -/
def countLeftDown : List Action → Nat
  | [] => 0
  | Action.leftDown :: r => countLeftDown r + 1
  | _ :: r => countLeftDown r

/-- Number of leftUp actions in a list. -/
def countLeftUp : List Action → Nat
  | [] => 0
  | Action.leftUp :: r => countLeftUp r + 1
  | _ :: r => countLeftUp r

/-- Number of atomic left clicks in a list. -/
def countLeftClick : List Action → Nat
  | [] => 0
  | Action.leftClick :: r => countLeftClick r + 1
  | _ :: r => countLeftClick r

/-- 1 when the drag flag says a button is held. -/
def dragBit (s : WorkerState) : Nat := if s.dragging then 1 else 0

/-- The per-tick cursor displacement produced by holding the single
movement key vk (or its arrow alias) with effective step se. -/
def moveDelta (vk : Nat) (se : Int) : Int × Int :=
  if vk = VK_D ∨ vk = VK_RIGHT then (se, 0)
  else if vk = VK_A ∨ vk = VK_LEFT then (-se, 0)
  else if vk = VK_S ∨ vk = VK_DOWN then (0, se)
  else (0, -se)

/-- The expected trace of a pure-movement run: each tick clamps the
previous position plus the constant delta and emits the result. -/
def moveTrace (scr : Screen) (p : Int × Int) (d : Int × Int) :
    Nat → List Action
  | 0 => []
  | n + 1 =>
    Action.moveTo (clampX scr (p.1 + d.1)) (clampY scr (p.2 + d.2)) ::
      moveTrace scr (clampX scr (p.1 + d.1), clampY scr (p.2 + d.2)) d n

/-- The snapshot holding exactly one movement key, optionally with
left Shift. -/
def mkSnap (vk : Nat) (withShift : Bool) : Snap :=
  if withShift then [vk, VK_LSHIFT] else [vk]

/-- The eight movement keys (WASD and their arrow aliases). -/
def moveKeys : List Nat :=
  [VK_W, VK_A, VK_S, VK_D, VK_UP, VK_LEFT, VK_DOWN, VK_RIGHT]

/-- The axis direction signs produced by holding the single movement
key vk (or its arrow alias): x grows rightward, y grows downward. -/
def moveSign (vk : Nat) : Int × Int :=
  if vk = VK_D ∨ vk = VK_RIGHT then (1, 0)
  else if vk = VK_A ∨ vk = VK_LEFT then (-1, 0)
  else if vk = VK_S ∨ vk = VK_DOWN then (0, 1)
  else (0, -1)

/-- The condition under which the shift-click site emits a click on a
tick, phrased on the state seen at the click site (src/py.py lines
781-783): rising Shift edge, no movement key or alias held, no drag
starting and no drag active. -/
def clickCond (s : WorkerState) (snap : Snap) : Bool :=
  shiftHeld snap && !s.prevShift && !(wasdOrArrowsHeld snap)
    && !(startDragCond snap) && !s.dragging

/-- A snapshot that exercises only the movement logic: no passthrough
or Alt modifier, no toggle, speed, scroll, drag, CapsLock or F key;
Shift exactly as given by ws; the axis direction signs resolve to
dSign; and at least one movement key or alias is held. -/
abbrev pureMoveSnap (snap : Snap) (dSign : Int × Int) (ws : Bool) : Prop :=
  ctrlHeld snap = false ∧ winHeld snap = false ∧ altHeld snap = false
  ∧ hasKey snap VK_OEM_3 = false
  ∧ (hasKey snap VK_OEM_PLUS || hasKey snap VK_ADD) = false
  ∧ (hasKey snap VK_OEM_MINUS || hasKey snap VK_SUBTRACT) = false
  ∧ scrollDirV snap = 0 ∧ scrollDirH snap = 0
  ∧ hasKey snap VK_TAB = false ∧ hasKey snap VK_CAPITAL = false
  ∧ hasKey snap VK_F = false
  ∧ shiftHeld snap = ws
  ∧ ((if effD snap then (1 : Int) else 0) - (if effA snap then 1 else 0))
      = dSign.1
  ∧ ((if effS snap then (1 : Int) else 0) - (if effW snap then 1 else 0))
      = dSign.2
  ∧ wasdOrArrowsHeld snap = true

/-- The worker state after one tick of pure movement with per-tick
delta d: cursor clamped, all edge trackers rewritten by the tick. -/
def pureMoveNext (scr : Screen) (st : WorkerState) (d : Int × Int) (ws : Bool) :
    WorkerState :=
  { st with cursorX := clampX scr (st.cursorX + d.1),
            cursorY := clampY scr (st.cursorY + d.2),
            prevShift := ws, prevScrollV := false, prevScrollH := false,
            nextScrollV := 0, nextScrollH := 0,
            prevPlus := false, prevMinus := false,
            prevCaps := false, prevF := false, prevBacktick := false }

/-! Concrete sample inputs used by witnesses and counterexamples. -/

/-- A 100 by 100 virtual screen anchored at the origin. -/
def scr0 : Screen := { left := 0, top := 0, width := 100, height := 100 }

/-- A hook state with nothing pressed, system active. -/
def sampleHookState : HookState :=
  { pressed := [], active := true, synthShiftActive := false, synthShiftVk := none }

/-- Hook state after the Shift+Enter mechanism armed a synthetic left
shift while physical left Shift is held. -/
def c4State : HookState :=
  { pressed := [VK_LSHIFT], active := true,
    synthShiftActive := true, synthShiftVk := some VK_LSHIFT }

/-- Physical release of left Shift. -/
def c4Event : HookEvent :=
  { nCode := 0, msg := WM_KEYUP, vk := VK_LSHIFT, injected := false }

/-- Oracle where only the synthetic-shift-up SendInput call faults. -/
def c4Faults : Faults :=
  { decode := false, synthDown := false, synthUp := true,
    volume := false, volPrint := false }

/-- Oracle where only the event-struct decode faults. -/
def faultDecodeOnly : Faults :=
  { decode := true, synthDown := false, synthUp := false,
    volume := false, volPrint := false }

/-- Oracle where only the volume feedback print faults. -/
def faultPrintOnly : Faults :=
  { decode := false, synthDown := false, synthUp := false,
    volume := false, volPrint := true }

/-- Physical keydown of the D movement key. -/
def evD_down : HookEvent :=
  { nCode := 0, msg := WM_KEYDOWN, vk := VK_D, injected := false }

/-- Physical keydown of the reserved backtick toggle key. -/
def evBacktick : HookEvent :=
  { nCode := 0, msg := WM_KEYDOWN, vk := VK_OEM_3, injected := false }

/-- A hook state with Ctrl, Alt and Win all held and the system
inactive. -/
def c7State : HookState :=
  { pressed := [VK_LCONTROL, VK_LMENU, VK_LWIN], active := false,
    synthShiftActive := false, synthShiftVk := none }

/-- A hook state with only the D key pressed, system active. -/
def c8State : HookState :=
  { pressed := [VK_D], active := true,
    synthShiftActive := false, synthShiftVk := none }

/-- A synthetically injected keydown of W. -/
def evInjected : HookEvent :=
  { nCode := 0, msg := WM_KEYDOWN, vk := VK_W, injected := true }

/-- Physical keydown of the left-bracket volume key. -/
def evVolDown : HookEvent :=
  { nCode := 0, msg := WM_KEYDOWN, vk := VK_OEM_4, injected := false }

/-- Drag balance: relative to the starting drag flag, the actions of
a phase keep the number of emitted left-button downs equal to the
number of ups plus the ending drag flag. -/
def DragBal (s : WorkerState) (p : WorkerState × List Action) : Prop :=
  countLeftDown p.2 + dragBit s = countLeftUp p.2 + dragBit p.1

/-! ## Lemmas about the counting functions -/

lemma countLeftDown_append (a b : List Action) :
    countLeftDown (a ++ b) = countLeftDown a + countLeftDown b := by
  induction a with
  | nil => simp [countLeftDown]
  | cons x r ih => cases x <;> simp [countLeftDown, ih] <;> omega

lemma countLeftUp_append (a b : List Action) :
    countLeftUp (a ++ b) = countLeftUp a + countLeftUp b := by
  induction a with
  | nil => simp [countLeftUp]
  | cons x r ih => cases x <;> simp [countLeftUp, ih] <;> omega

lemma countLeftClick_append (a b : List Action) :
    countLeftClick (a ++ b) = countLeftClick a + countLeftClick b := by
  induction a with
  | nil => simp [countLeftClick]
  | cons x r ih => cases x <;> simp [countLeftClick, ih] <;> omega

/-! ## Per-phase facts -/

lemma movePhase_dragging (scr : Screen) (s : WorkerState) (snap : Snap) :
    (movePhase scr s snap).1.dragging = s.dragging := by
  unfold movePhase; split_ifs <;> rfl

lemma movePhase_prevShift (scr : Screen) (s : WorkerState) (snap : Snap) :
    (movePhase scr s snap).1.prevShift = s.prevShift := by
  unfold movePhase; split_ifs <;> rfl

lemma movePhase_counts (scr : Screen) (s : WorkerState) (snap : Snap) :
    countLeftDown (movePhase scr s snap).2 = 0
    ∧ countLeftUp (movePhase scr s snap).2 = 0
    ∧ countLeftClick (movePhase scr s snap).2 = 0 := by
  unfold movePhase; split_ifs <;> exact ⟨rfl, rfl, rfl⟩

lemma scrollVPhase_dragging (s : WorkerState) (snap : Snap) (now : Int) :
    (scrollVPhase s snap now).1.dragging = s.dragging := by
  unfold scrollVPhase; split_ifs <;> rfl

lemma scrollVPhase_prevShift (s : WorkerState) (snap : Snap) (now : Int) :
    (scrollVPhase s snap now).1.prevShift = s.prevShift := by
  unfold scrollVPhase; split_ifs <;> rfl

lemma scrollVPhase_counts (s : WorkerState) (snap : Snap) (now : Int) :
    countLeftDown (scrollVPhase s snap now).2 = 0
    ∧ countLeftUp (scrollVPhase s snap now).2 = 0
    ∧ countLeftClick (scrollVPhase s snap now).2 = 0 := by
  unfold scrollVPhase; split_ifs <;> exact ⟨rfl, rfl, rfl⟩

lemma scrollHPhase_dragging (s : WorkerState) (snap : Snap) (now : Int) :
    (scrollHPhase s snap now).1.dragging = s.dragging := by
  unfold scrollHPhase; split_ifs <;> rfl

lemma scrollHPhase_prevShift (s : WorkerState) (snap : Snap) (now : Int) :
    (scrollHPhase s snap now).1.prevShift = s.prevShift := by
  unfold scrollHPhase; split_ifs <;> rfl

lemma scrollHPhase_counts (s : WorkerState) (snap : Snap) (now : Int) :
    countLeftDown (scrollHPhase s snap now).2 = 0
    ∧ countLeftUp (scrollHPhase s snap now).2 = 0
    ∧ countLeftClick (scrollHPhase s snap now).2 = 0 := by
  unfold scrollHPhase; split_ifs <;> exact ⟨rfl, rfl, rfl⟩

lemma clickActs_counts (s : WorkerState) (snap : Snap) :
    countLeftDown (clickActs s snap) = 0
    ∧ countLeftUp (clickActs s snap) = 0 := by
  unfold clickActs; split_ifs <;> exact ⟨rfl, rfl⟩

lemma capsPhase_dragging (s : WorkerState) (snap : Snap) :
    (capsPhase s snap).1.dragging = s.dragging := rfl

lemma capsPhase_counts (s : WorkerState) (snap : Snap) :
    countLeftDown (capsPhase s snap).2 = 0
    ∧ countLeftUp (capsPhase s snap).2 = 0
    ∧ countLeftClick (capsPhase s snap).2 = 0 := by
  unfold capsPhase
  split_ifs <;> exact ⟨rfl, rfl, rfl⟩

lemma fPhase_dragging (s : WorkerState) (snap : Snap) :
    (fPhase s snap).1.dragging = s.dragging := rfl

lemma fPhase_counts (s : WorkerState) (snap : Snap) :
    countLeftDown (fPhase s snap).2 = 0
    ∧ countLeftUp (fPhase s snap).2 = 0
    ∧ countLeftClick (fPhase s snap).2 = 0 := by
  unfold fPhase
  split_ifs <;> exact ⟨rfl, rfl, rfl⟩

lemma shiftScrollCommit_dragging (s : WorkerState) (snap : Snap) :
    (shiftScrollCommit s snap).dragging = s.dragging := rfl

lemma resetTrackers_dragging (s : WorkerState) :
    (resetTrackers s).dragging = s.dragging := rfl

lemma tickSpeed_dragging (s : WorkerState) (snap : Snap) :
    (tickSpeed s snap).dragging = s.dragging := by
  simp only [tickSpeed]; split_ifs <;> rfl

lemma tickSpeed_active (s : WorkerState) (snap : Snap) :
    (tickSpeed s snap).active = s.active := by
  simp only [tickSpeed]; split_ifs <;> rfl

lemma tickSpeed_prevShift (s : WorkerState) (snap : Snap) :
    (tickSpeed s snap).prevShift = s.prevShift := by
  simp only [tickSpeed]; split_ifs <;> rfl

lemma forceReleaseDrag_bal (s : WorkerState) : DragBal s (forceReleaseDrag s) := by
  unfold DragBal forceReleaseDrag
  split_ifs with h <;> simp_all [dragBit, countLeftDown, countLeftUp]

lemma forceReleaseDrag_active (s : WorkerState) :
    (forceReleaseDrag s).1.active = s.active := by
  unfold forceReleaseDrag; split_ifs <;> rfl

lemma forceReleaseDrag_prevShift (s : WorkerState) :
    (forceReleaseDrag s).1.prevShift = s.prevShift := by
  unfold forceReleaseDrag; split_ifs <;> rfl

lemma forceReleaseDrag_counts (s : WorkerState) :
    countLeftDown (forceReleaseDrag s).2 = 0
    ∧ countLeftClick (forceReleaseDrag s).2 = 0 := by
  unfold forceReleaseDrag; split_ifs <;> exact ⟨rfl, rfl⟩

lemma tickToggle_bal (s : WorkerState) (snap : Snap) : DragBal s (tickToggle s snap) := by
  unfold DragBal
  simp only [tickToggle]
  split_ifs <;> simp_all [dragBit, countLeftDown, countLeftUp]

lemma tickToggle_counts (s : WorkerState) (snap : Snap) :
    countLeftDown (tickToggle s snap).2 = 0
    ∧ countLeftClick (tickToggle s snap).2 = 0 := by
  simp only [tickToggle]; split_ifs <;> exact ⟨rfl, rfl⟩

lemma tickToggle_prevShift (s : WorkerState) (snap : Snap) :
    (tickToggle s snap).1.prevShift = s.prevShift := by
  simp only [tickToggle]; split_ifs <;> rfl

lemma dragPhase_bal (s : WorkerState) (snap : Snap) : DragBal s (dragPhase s snap) := by
  unfold DragBal dragPhase
  split_ifs <;> simp_all [dragBit, countLeftDown, countLeftUp]

lemma dragPhase_counts (s : WorkerState) (snap : Snap) :
    countLeftClick (dragPhase s snap).2 = 0 := by
  unfold dragPhase; split_ifs <;> rfl

lemma DragBal.comp {s : WorkerState} {p q : WorkerState × List Action}
    (h1 : DragBal s p) (h2 : DragBal p.1 q) :
    countLeftDown (p.2 ++ q.2) + dragBit s
      = countLeftUp (p.2 ++ q.2) + dragBit q.1 := by
  unfold DragBal at h1 h2
  rw [countLeftDown_append, countLeftUp_append]
  omega

lemma tickActive_bal (scr : Screen) (s : WorkerState) (snap : Snap) (now : Int) :
    DragBal s (tickActive scr s snap now) := by
  unfold DragBal tickActive
  simp only [countLeftDown_append, countLeftUp_append]
  have hm := movePhase_counts scr s snap
  have hv := scrollVPhase_counts (movePhase scr s snap).1 snap now
  have hh := scrollHPhase_counts (scrollVPhase (movePhase scr s snap).1 snap now).1 snap now
  have hcl := clickActs_counts (scrollHPhase (scrollVPhase (movePhase scr s snap).1 snap now).1 snap now).1 snap
  set s1 := shiftScrollCommit
    (scrollHPhase (scrollVPhase (movePhase scr s snap).1 snap now).1 snap now).1 snap with hs1
  have hd := dragPhase_bal s1 snap
  have hc := capsPhase_counts (dragPhase s1 snap).1 snap
  have hf := fPhase_counts (capsPhase (dragPhase s1 snap).1 snap).1 snap
  have e1 : dragBit s1 = dragBit s := by
    unfold dragBit
    rw [hs1, shiftScrollCommit_dragging, scrollHPhase_dragging,
        scrollVPhase_dragging, movePhase_dragging]
  have e2 : dragBit (fPhase (capsPhase (dragPhase s1 snap).1 snap).1 snap).1
      = dragBit (dragPhase s1 snap).1 := by
    unfold dragBit
    rw [fPhase_dragging, capsPhase_dragging]
  unfold DragBal at hd
  omega

lemma workerTick_bal (scr : Screen) (s : WorkerState) (snap : Snap) (now : Int) :
    DragBal s (workerTick scr s snap now) := by
  have ht := tickToggle_bal s snap
  have hsp : dragBit (tickSpeed (tickToggle s snap).1 snap)
      = dragBit (tickToggle s snap).1 := by
    unfold dragBit; rw [tickSpeed_dragging]
  have hdr1 : dragBit (resetTrackers (tickSpeed (tickToggle s snap).1 snap))
      = dragBit (tickSpeed (tickToggle s snap).1 snap) := by
    unfold dragBit; rw [resetTrackers_dragging]
  have hr1 := forceReleaseDrag_bal (resetTrackers (tickSpeed (tickToggle s snap).1 snap))
  have hfr := forceReleaseDrag_bal (tickSpeed (tickToggle s snap).1 snap)
  have ha1 := tickActive_bal scr (tickSpeed (tickToggle s snap).1 snap) snap now
  have ha2 := tickActive_bal scr
    (forceReleaseDrag (tickSpeed (tickToggle s snap).1 snap)).1 snap now
  have hdr2 : dragBit (resetTrackers
        (forceReleaseDrag (tickSpeed (tickToggle s snap).1 snap)).1)
      = dragBit (forceReleaseDrag (tickSpeed (tickToggle s snap).1 snap)).1 := by
    unfold dragBit; rw [resetTrackers_dragging]
  have hr2 := forceReleaseDrag_bal
    (resetTrackers (forceReleaseDrag (tickSpeed (tickToggle s snap).1 snap)).1)
  unfold DragBal at ht hr1 hfr ha1 ha2 hr2 ⊢
  simp only [workerTick]
  split_ifs <;>
    simp only [countLeftDown_append, countLeftUp_append,
      countLeftDown, countLeftUp] <;>
    omega

lemma workerRun_bal (scr : Screen) (s : WorkerState) (inputs : List (Snap × Int)) :
    countLeftDown (workerRun scr s inputs).2 + dragBit s
      = countLeftUp (workerRun scr s inputs).2 + dragBit (workerRun scr s inputs).1 := by
  induction inputs generalizing s with
  | nil => rfl
  | cons i rest ih =>
    obtain ⟨snap, now⟩ := i
    have ht := workerTick_bal scr s snap now
    unfold DragBal at ht
    have hr := ih (workerTick scr s snap now).1
    unfold workerRun
    simp only [countLeftDown_append, countLeftUp_append]
    omega

/-! ## Hook lemmas -/

lemma hookProc_decision_eq (s : HookState) (ev : HookEvent) (f : Faults)
    (hcode : 0 ≤ ev.nCode) (hdec : f.decode = false) (hvp : f.volPrint = false) :
    (hookProc s ev f).2.2 = hookDecision (trackKeys s.pressed ev) s.active ev := by
  unfold hookProc
  rw [if_neg (by omega)]
  simp [hdec, hvp]

/-! ## Claims -/

/-- Claim C5 (confirmed): the drag state machine keeps the invariant
that the number of emitted left-button downs equals the number of
emitted left-button ups plus one exactly when dragging_active is
true: over any run of ticks the balance of downs against ups equals
the change of the drag flag (so starting a drag emits exactly one
down, holding it across ticks emits no duplicate downs, and each
disabling condition emits exactly one compensating up), and appending
the worker's finally-block release always restores an exact
down/up balance. -/
theorem claim_C5_drag_invariant (scr : Screen) (s : WorkerState)
    (inputs : List (Snap × Int)) :
    (countLeftDown (workerRun scr s inputs).2 + dragBit s
      = countLeftUp (workerRun scr s inputs).2
          + dragBit (workerRun scr s inputs).1)
    ∧ (countLeftDown ((workerRun scr s inputs).2
          ++ workerFinally (workerRun scr s inputs).1) + dragBit s
        = countLeftUp ((workerRun scr s inputs).2
          ++ workerFinally (workerRun scr s inputs).1)) := by
  have h := workerRun_bal scr s inputs
  refine ⟨h, ?_⟩
  rw [countLeftDown_append, countLeftUp_append]
  have hfin : countLeftDown (workerFinally (workerRun scr s inputs).1) = 0
      ∧ countLeftUp (workerFinally (workerRun scr s inputs).1)
        = dragBit (workerRun scr s inputs).1 := by
    unfold workerFinally dragBit
    split_ifs <;> simp [countLeftDown, countLeftUp]
  omega

/-- Claim C7 (confirmed): every physical transition of the reserved
backtick toggle key is consumed by the hook callback, regardless of
the active flag and of any modifier state. -/
theorem claim_C7_toggle_always_consumed (s : HookState) (ev : HookEvent)
    (hphys : ev.injected = false) (hcode : 0 ≤ ev.nCode)
    (hvk : ev.vk = VK_OEM_3) :
    (hookProc s ev noFaults).2.2 = Decision.consume := by
  rw [hookProc_decision_eq s ev noFaults hcode rfl rfl]
  simp [hookDecision, alwaysBlockKey, hphys, hvk]

/-- Witness for C7: a physical backtick keydown with the system
inactive and Ctrl, Alt and Win all held is still consumed. -/
theorem claim_C7_witness :
    evBacktick.injected = false ∧ (0 : Int) ≤ evBacktick.nCode
    ∧ evBacktick.vk = VK_OEM_3
    ∧ (hookProc c7State evBacktick noFaults).2.2 = Decision.consume :=
  ⟨rfl, by decide, rfl,
    claim_C7_toggle_always_consumed c7State evBacktick rfl (by decide) rfl⟩

/-- Claim C8 (confirmed): a synthetically injected event never
mutates the hook state (in particular the pressed-key set), produces
no side effects, and is always forwarded, under every fault oracle. -/
theorem claim_C8_injected_untouched (s : HookState) (ev : HookEvent)
    (f : Faults) (hinj : ev.injected = true) :
    hookProc s ev f = (s, [], Decision.forward) := by
  have hv : volBranchHit ev = false := by simp [volBranchHit, hinj]
  have htr : trackKeys s.pressed ev = s.pressed := by simp [trackKeys, hinj]
  unfold hookProc
  by_cases h1 : ev.nCode < 0
  · rw [if_pos h1]
  · rw [if_neg h1]
    by_cases h2 : f.decode = true
    · rw [if_pos h2]
    · rw [if_neg h2]
      simp [hv, htr, synthPhase, hookDecision, hinj]

/-- Witness for C8: an injected W keydown leaves a nonempty pressed
set untouched and is forwarded. -/
theorem claim_C8_witness :
    evInjected.injected = true
    ∧ hookProc c8State evInjected noFaults = (c8State, [], Decision.forward) :=
  ⟨rfl, claim_C8_injected_untouched c8State evInjected noFaults rfl⟩

/-- Claim C6 (confirmed): for a physical event on any recognized
script key other than the reserved backtick, the decision is consume
exactly when the system is active and neither Ctrl nor Win is held
after tracking the event, except that Tab is forwarded while Alt is
held; keys outside the recognized set never satisfy the right-hand
side, hence are always forwarded. -/
theorem claim_C6_block_decision (s : HookState) (ev : HookEvent)
    (hphys : ev.injected = false) (hcode : 0 ≤ ev.nCode)
    (hvk : ev.vk ≠ VK_OEM_3) :
    ((hookProc s ev noFaults).2.2 = Decision.consume ↔
      (isScriptKey ev.vk = true ∧ s.active = true
        ∧ ctrlHeld (trackKeys s.pressed ev) = false
        ∧ winHeld (trackKeys s.pressed ev) = false
        ∧ ¬(ev.vk = VK_TAB ∧ altHeld (trackKeys s.pressed ev) = true))) := by
  rw [hookProc_decision_eq s ev noFaults hcode rfl rfl]
  unfold hookDecision alwaysBlockKey
  rw [hphys]
  rw [if_neg (by simp)]
  rw [if_neg (by simp [hvk])]
  by_cases htab : (ev.vk == VK_TAB && altHeld (trackKeys s.pressed ev)) = true
  · rw [if_pos htab]
    simp only [Bool.and_eq_true, beq_iff_eq] at htab
    constructor
    · intro h; exact absurd h (by decide)
    · intro h; exact (h.2.2.2.2 ⟨htab.1, htab.2⟩).elim
  · rw [if_neg htab]
    by_cases hc : (isScriptKey ev.vk && s.active
        && !(ctrlHeld (trackKeys s.pressed ev))
        && !(winHeld (trackKeys s.pressed ev))) = true
    · rw [if_pos hc]
      simp only [Bool.and_eq_true, Bool.not_eq_true'] at hc
      constructor
      · intro _
        refine ⟨hc.1.1.1, hc.1.1.2, hc.1.2, hc.2, ?_⟩
        intro hcontr
        exact absurd (by simp [hcontr.1, hcontr.2]) htab
      · intro _; rfl
    · rw [if_neg hc]
      constructor
      · intro h; exact absurd h (by decide)
      · intro h
        exact absurd (by simp [h.1, h.2.1, h.2.2.1, h.2.2.2.1]) hc

/-- Witness for C6: a physical D keydown on an empty pressed set with
the system active is consumed, and the right-hand side holds. -/
theorem claim_C6_witness :
    evD_down.injected = false ∧ (0 : Int) ≤ evD_down.nCode
    ∧ evD_down.vk ≠ VK_OEM_3
    ∧ ((hookProc sampleHookState evD_down noFaults).2.2 = Decision.consume ↔
        (isScriptKey evD_down.vk = true ∧ sampleHookState.active = true
          ∧ ctrlHeld (trackKeys sampleHookState.pressed evD_down) = false
          ∧ winHeld (trackKeys sampleHookState.pressed evD_down) = false
          ∧ ¬(evD_down.vk = VK_TAB
              ∧ altHeld (trackKeys sampleHookState.pressed evD_down) = true))) :=
  ⟨rfl, by decide, by decide,
    claim_C6_block_decision sampleHookState evD_down rfl (by decide) (by decide)⟩

/-- Counterexample for C4 as stated: on the physical release of left
Shift while a synthetic shift is outstanding, a fault in the
SendInput call that releases the synthetic shift (part of the
Shift+Enter passthrough, step 4 of the claim) is swallowed by the
inner handler at src/py.py lines 467-470 and processing continues:
the decision is consume (Shift is a script key and the system is
active with no Ctrl or Win held), not the claimed forward. The second
conjunct shows the faulting call lies on the executed path: with no
fault the very same event emits the synthetic key-up. -/
theorem claim_C4_counterexample :
    (hookProc c4State c4Event c4Faults).2.2 = Decision.consume
    ∧ (hookProc c4State c4Event noFaults).2.1
        = [HookEffect.keyUp VK_LSHIFT] := by
  constructor <;> decide

/-- Claim C4 (corrected): faults that reach the callback's outer
handler are swallowed and the decision defaults to forward: a decode
fault forwards with no state change and no effects, and a fault in
the volume feedback print forwards; faults in the inner-handled
calls (the synthetic-shift SendInput calls and the volume-set call)
are swallowed locally and leave the consume/forward decision exactly
what it would have been without the fault. -/
theorem claim_C4_amended (s : HookState) (ev : HookEvent) (f : Faults) :
    (f.decode = true → hookProc s ev f = (s, [], Decision.forward))
    ∧ (f.volPrint = true → volBranchHit ev = true →
        (hookProc s ev f).2.2 = Decision.forward)
    ∧ (hookProc s ev innerFaultsOnly).2.2
        = (hookProc s ev noFaults).2.2 := by
  refine ⟨?_, ?_, ?_⟩
  · intro hd
    unfold hookProc
    by_cases h1 : ev.nCode < 0
    · rw [if_pos h1]
    · rw [if_neg h1, if_pos hd]
  · intro hp hv
    unfold hookProc
    by_cases h1 : ev.nCode < 0
    · rw [if_pos h1]
    · rw [if_neg h1]
      by_cases h2 : f.decode = true
      · rw [if_pos h2]
      · rw [if_neg h2]
        simp [hv, hp]
  · by_cases h : ev.nCode < 0
    · simp [hookProc, h]
    · rw [hookProc_decision_eq s ev innerFaultsOnly (by omega) rfl rfl,
          hookProc_decision_eq s ev noFaults (by omega) rfl rfl]

/-! ## Further per-phase facts for the click, toggle and speed claims -/

lemma dragPhase_prevShift (s : WorkerState) (snap : Snap) :
    (dragPhase s snap).1.prevShift = s.prevShift := by
  unfold dragPhase; split_ifs <;> rfl

lemma capsPhase_prevShift (s : WorkerState) (snap : Snap) :
    (capsPhase s snap).1.prevShift = s.prevShift := rfl

lemma fPhase_prevShift (s : WorkerState) (snap : Snap) :
    (fPhase s snap).1.prevShift = s.prevShift := rfl

lemma tickActive_prevShift (scr : Screen) (s : WorkerState) (snap : Snap)
    (now : Int) :
    (tickActive scr s snap now).1.prevShift = shiftHeld snap := by
  simp only [tickActive]
  rw [fPhase_prevShift, capsPhase_prevShift, dragPhase_prevShift]
  rfl

lemma clickActs_congr (s1 s2 : WorkerState) (snap : Snap)
    (h1 : s1.prevShift = s2.prevShift) (h2 : s1.dragging = s2.dragging) :
    clickActs s1 snap = clickActs s2 snap := by
  unfold clickActs; rw [h1, h2]

lemma countLeftClick_clickActs (s : WorkerState) (snap : Snap) :
    countLeftClick (clickActs s snap) = if clickCond s snap then 1 else 0 := by
  unfold clickActs clickCond
  split_ifs <;> simp_all [countLeftClick]

lemma tickActive_clicks (scr : Screen) (s : WorkerState) (snap : Snap)
    (now : Int) :
    countLeftClick (tickActive scr s snap now).2
      = if clickCond s snap then 1 else 0 := by
  simp only [tickActive, countLeftClick_append]
  rw [(movePhase_counts scr s snap).2.2,
      (scrollVPhase_counts (movePhase scr s snap).1 snap now).2.2,
      (scrollHPhase_counts (scrollVPhase (movePhase scr s snap).1 snap now).1
        snap now).2.2,
      dragPhase_counts,
      (capsPhase_counts _ snap).2.2, (fPhase_counts _ snap).2.2]
  rw [clickActs_congr
        (scrollHPhase (scrollVPhase (movePhase scr s snap).1 snap now).1 snap now).1
        s snap
        (by rw [scrollHPhase_prevShift, scrollVPhase_prevShift, movePhase_prevShift])
        (by rw [scrollHPhase_dragging, scrollVPhase_dragging, movePhase_dragging])]
  rw [countLeftClick_clickActs]
  omega

lemma tickToggle_noKey (s : WorkerState) (snap : Snap)
    (hbt : hasKey snap VK_OEM_3 = false) :
    tickToggle s snap = ({ s with prevBacktick := false }, []) := by
  simp [tickToggle, hbt]

lemma tickToggle_active (s : WorkerState) (snap : Snap) :
    (tickToggle s snap).1.active
      = if hasKey snap VK_OEM_3 && !s.prevBacktick then !s.active
        else s.active := by
  simp only [tickToggle]
  split_ifs <;> rfl

lemma forceReleaseDrag_dragging (s : WorkerState) :
    (forceReleaseDrag s).1.dragging = false := by
  unfold forceReleaseDrag
  split_ifs with h
  · rfl
  · simpa using h

lemma forceReleaseDrag_trackers (s : WorkerState) :
    (forceReleaseDrag s).1.prevShift = s.prevShift
    ∧ (forceReleaseDrag s).1.prevScrollV = s.prevScrollV
    ∧ (forceReleaseDrag s).1.prevScrollH = s.prevScrollH
    ∧ (forceReleaseDrag s).1.prevCaps = s.prevCaps
    ∧ (forceReleaseDrag s).1.prevF = s.prevF := by
  unfold forceReleaseDrag
  split_ifs <;> exact ⟨rfl, rfl, rfl, rfl, rfl⟩

lemma forceReleaseDrag_step (s : WorkerState) :
    (forceReleaseDrag s).1.step = s.step := by
  unfold forceReleaseDrag; split_ifs <;> rfl

lemma movePhase_active (scr : Screen) (s : WorkerState) (snap : Snap) :
    (movePhase scr s snap).1.active = s.active := by
  unfold movePhase; split_ifs <;> rfl

lemma scrollVPhase_active (s : WorkerState) (snap : Snap) (now : Int) :
    (scrollVPhase s snap now).1.active = s.active := by
  unfold scrollVPhase; split_ifs <;> rfl

lemma scrollHPhase_active (s : WorkerState) (snap : Snap) (now : Int) :
    (scrollHPhase s snap now).1.active = s.active := by
  unfold scrollHPhase; split_ifs <;> rfl

lemma dragPhase_active (s : WorkerState) (snap : Snap) :
    (dragPhase s snap).1.active = s.active := by
  unfold dragPhase; split_ifs <;> rfl

lemma tickActive_active (scr : Screen) (s : WorkerState) (snap : Snap)
    (now : Int) :
    (tickActive scr s snap now).1.active = s.active := by
  simp only [tickActive]
  show (fPhase _ snap).1.active = s.active
  rw [show ∀ (u : WorkerState) (sn : Snap), (fPhase u sn).1.active = u.active
      from fun u sn => rfl]
  rw [show ∀ (u : WorkerState) (sn : Snap), (capsPhase u sn).1.active = u.active
      from fun u sn => rfl]
  rw [dragPhase_active]
  show (scrollHPhase _ snap now).1.active = s.active
  rw [scrollHPhase_active, scrollVPhase_active, movePhase_active]

lemma resetTrackers_active (s : WorkerState) :
    (resetTrackers s).active = s.active := rfl

lemma workerTick_active_eq (scr : Screen) (s : WorkerState) (snap : Snap)
    (now : Int) :
    (workerTick scr s snap now).1.active
      = if hasKey snap VK_OEM_3 && !s.prevBacktick then !s.active
        else s.active := by
  rw [← tickToggle_active s snap]
  simp only [workerTick]
  split_ifs <;>
    simp only [tickActive_active, forceReleaseDrag_active, resetTrackers_active,
      tickSpeed_active]

lemma workerTick_noCtrl_noAlt (scr : Screen) (s : WorkerState) (snap : Snap)
    (now : Int) (hctrl : ctrlHeld snap = false) (hwin : winHeld snap = false)
    (hbt : hasKey snap VK_OEM_3 = false) (hact : s.active = true)
    (ha : altHeld snap = false) :
    workerTick scr s snap now
      = tickActive scr (tickSpeed { s with prevBacktick := false } snap)
          snap now := by
  simp only [workerTick, tickToggle_noKey s snap hbt]
  rw [if_neg (by simp [hctrl, hwin])]
  simp [ha, tickSpeed_active, hact]

lemma workerTick_noCtrl_alt (scr : Screen) (s : WorkerState) (snap : Snap)
    (now : Int) (hctrl : ctrlHeld snap = false) (hwin : winHeld snap = false)
    (hbt : hasKey snap VK_OEM_3 = false) (hact : s.active = true)
    (ha : altHeld snap = true) :
    workerTick scr s snap now
      = ((tickActive scr
            (forceReleaseDrag (tickSpeed { s with prevBacktick := false } snap)).1
            snap now).1,
         (forceReleaseDrag (tickSpeed { s with prevBacktick := false } snap)).2
           ++ (tickActive scr
                (forceReleaseDrag
                  (tickSpeed { s with prevBacktick := false } snap)).1
                snap now).2) := by
  simp only [workerTick, tickToggle_noKey s snap hbt]
  rw [if_neg (by simp [hctrl, hwin])]
  simp [ha, forceReleaseDrag_active, tickSpeed_active, hact]

lemma tickToggle_mem (s : WorkerState) (snap : Snap) :
    ∀ a ∈ (tickToggle s snap).2, a = Action.leftUp := by
  simp only [tickToggle]
  split_ifs <;> simp

lemma forceReleaseDrag_mem (s : WorkerState) :
    ∀ a ∈ (forceReleaseDrag s).2, a = Action.leftUp := by
  unfold forceReleaseDrag
  split_ifs <;> simp

lemma workerTick_ctrl_mem (scr : Screen) (s : WorkerState) (snap : Snap)
    (now : Int) (h : (ctrlHeld snap || winHeld snap) = true) :
    ∀ a ∈ (workerTick scr s snap now).2, a = Action.leftUp := by
  simp only [workerTick]
  rw [if_pos h]
  intro a ha
  rcases List.mem_append.mp ha with h1 | h1
  · exact tickToggle_mem s snap a h1
  · exact forceReleaseDrag_mem _ a h1

lemma workerRun_ctrl_mem (scr : Screen) (s : WorkerState)
    (inputs : List (Snap × Int))
    (h : ∀ p ∈ inputs, (ctrlHeld p.1 || winHeld p.1) = true) :
    ∀ a ∈ (workerRun scr s inputs).2, a = Action.leftUp := by
  revert h
  induction inputs generalizing s with
  | nil =>
    intro h a ha
    simp [workerRun] at ha
  | cons i rest ih =>
    intro h a ha
    obtain ⟨snap, now⟩ := i
    have hh : (ctrlHeld snap || winHeld snap) = true := h (snap, now) (by simp)
    have ht : ∀ p ∈ rest, (ctrlHeld p.1 || winHeld p.1) = true :=
      fun p hp => h p (by simp [hp])
    unfold workerRun at ha
    rcases List.mem_append.mp ha with h1 | h1
    · exact workerTick_ctrl_mem scr s snap now hh a h1
    · exact ih (workerTick scr s snap now).1 ht a h1

lemma resetTrackers_step (s : WorkerState) :
    (resetTrackers s).step = s.step := rfl

lemma workerTick_step_ctrl (scr : Screen) (s : WorkerState) (snap : Snap)
    (now : Int) (h1 : (ctrlHeld snap || winHeld snap) = true) :
    (workerTick scr s snap now).1.step
      = (tickSpeed (tickToggle s snap).1 snap).step := by
  simp only [workerTick]
  rw [if_pos h1]
  show (forceReleaseDrag (resetTrackers _)).1.step = _
  rw [forceReleaseDrag_step, resetTrackers_step]

lemma tickSpeed_step_plus (s : WorkerState) (snap : Snap)
    (hact : s.active = true)
    (hplus : (hasKey snap VK_OEM_PLUS || hasKey snap VK_ADD) = true)
    (hprev : s.prevPlus = false)
    (hminus : (hasKey snap VK_OEM_MINUS || hasKey snap VK_SUBTRACT) = false) :
    (tickSpeed s snap).step = min MAX_STEP (s.step + 1) := by
  simp [tickSpeed, hact, hplus, hprev, hminus]

lemma hookProc_effects_eq (s : HookState) (ev : HookEvent) (f : Faults)
    (hcode : 0 ≤ ev.nCode) (hdec : f.decode = false) (hvp : f.volPrint = false) :
    (hookProc s ev f).2.1
      = (synthPhase { s with pressed := trackKeys s.pressed ev } ev
          (ctrlHeld (trackKeys s.pressed ev)) f).2
        ++ (if volBranchHit ev && !f.volume
            then [HookEffect.volumeSet (if ev.vk == VK_OEM_4 then 24 else 42)]
            else []) := by
  unfold hookProc
  rw [if_neg (by omega)]
  simp [hdec, hvp]

/-- Witness for C4 amended: a decode fault on a physical D keydown
forwards untouched, and a print fault on the volume branch forwards. -/
theorem claim_C4_amended_witness :
    faultDecodeOnly.decode = true
    ∧ hookProc sampleHookState evD_down faultDecodeOnly
        = (sampleHookState, [], Decision.forward)
    ∧ faultPrintOnly.volPrint = true
    ∧ volBranchHit evVolDown = true
    ∧ (hookProc sampleHookState evVolDown faultPrintOnly).2.2
        = Decision.forward :=
  ⟨rfl,
    (claim_C4_amended sampleHookState evD_down faultDecodeOnly).1 rfl,
    rfl, by decide,
    (claim_C4_amended sampleHookState evVolDown faultPrintOnly).2.1 rfl (by decide)⟩

/-! ## Pure-movement run lemmas for C3 -/

lemma tickSpeed_noKeys (s : WorkerState) (snap : Snap)
    (hp : (hasKey snap VK_OEM_PLUS || hasKey snap VK_ADD) = false)
    (hm : (hasKey snap VK_OEM_MINUS || hasKey snap VK_SUBTRACT) = false) :
    tickSpeed s snap = { s with prevPlus := false, prevMinus := false } := by
  simp [tickSpeed, hp, hm]

lemma tickActive_pure_move (scr : Screen) (u : WorkerState) (snap : Snap)
    (now : Int) (ws : Bool) (dSign : Int × Int)
    (hv : scrollDirV snap = 0) (hh2 : scrollDirH snap = 0)
    (htab : hasKey snap VK_TAB = false)
    (hcaps : hasKey snap VK_CAPITAL = false)
    (hfk : hasKey snap VK_F = false) (hs : shiftHeld snap = ws)
    (hdx : ((if effD snap then (1 : Int) else 0)
        - (if effA snap then 1 else 0)) = dSign.1)
    (hdy : ((if effS snap then (1 : Int) else 0)
        - (if effW snap then 1 else 0)) = dSign.2)
    (hwasd : wasdOrArrowsHeld snap = true)
    (hdrag : u.dragging = false)
    (hsign : ¬(dSign.1 = 0 ∧ dSign.2 = 0)) :
    tickActive scr u snap now
      = ({ u with
            cursorX := clampX scr
              (u.cursorX + (stepEffective u.step ws : Int) * dSign.1),
            cursorY := clampY scr
              (u.cursorY + (stepEffective u.step ws : Int) * dSign.2),
            prevShift := ws, prevScrollV := false, prevScrollH := false,
            nextScrollV := 0, nextScrollH := 0,
            prevCaps := false, prevF := false },
         [Action.moveTo
            (clampX scr (u.cursorX + (stepEffective u.step ws : Int) * dSign.1))
            (clampY scr
              (u.cursorY + (stepEffective u.step ws : Int) * dSign.2))]) := by
  have hdx2 : tickDx u snap = (stepEffective u.step ws : Int) * dSign.1 := by
    unfold tickDx; rw [hs, hdx]
  have hdy2 : tickDy u snap = (stepEffective u.step ws : Int) * dSign.2 := by
    unfold tickDy; rw [hs, hdy]
  have hge : 1 ≤ stepEffective u.step ws := le_max_left _ _
  have hne : ((stepEffective u.step ws : Nat) : Int) ≠ 0 :=
    Int.natCast_ne_zero.mpr (Nat.pos_iff_ne_zero.mp hge)
  have hcond : tickDx u snap ≠ 0 ∨ tickDy u snap ≠ 0 := by
    rcases not_and_or.mp hsign with h0 | h0
    · exact Or.inl (by rw [hdx2]; exact mul_ne_zero hne h0)
    · exact Or.inr (by rw [hdy2]; exact mul_ne_zero hne h0)
  have hm : movePhase scr u snap
      = ({ u with
            cursorX := clampX scr
              (u.cursorX + (stepEffective u.step ws : Int) * dSign.1),
            cursorY := clampY scr
              (u.cursorY + (stepEffective u.step ws : Int) * dSign.2) },
         [Action.moveTo
            (clampX scr (u.cursorX + (stepEffective u.step ws : Int) * dSign.1))
            (clampY scr
              (u.cursorY + (stepEffective u.step ws : Int) * dSign.2))]) := by
    unfold movePhase
    rw [if_pos hcond, hdx2, hdy2]
  have hsv : ∀ w : WorkerState, scrollVPhase w snap now
      = ({ w with nextScrollV := 0 }, []) := by
    intro w; unfold scrollVPhase; rw [hv]; simp
  have hsh : ∀ w : WorkerState, scrollHPhase w snap now
      = ({ w with nextScrollH := 0 }, []) := by
    intro w; unfold scrollHPhase; rw [hh2]; simp
  have hcl : ∀ w : WorkerState, clickActs w snap = [] := by
    intro w; unfold clickActs; rw [hwasd]; simp
  have hcm : ∀ w : WorkerState, shiftScrollCommit w snap
      = { w with prevShift := ws, prevScrollV := false,
                 prevScrollH := false } := by
    intro w; unfold shiftScrollCommit; rw [hs, hv, hh2]; simp
  have hdg : ∀ w : WorkerState, w.dragging = false →
      dragPhase w snap = (w, []) := by
    intro w hw; unfold dragPhase startDragCond; rw [htab]; simp [hw]
  have hcp : ∀ w : WorkerState, capsPhase w snap
      = ({ w with prevCaps := false }, []) := by
    intro w; unfold capsPhase; rw [hcaps]; simp
  have hfp : ∀ w : WorkerState, fPhase w snap
      = ({ w with prevF := false }, []) := by
    intro w; unfold fPhase; rw [hfk]; simp
  simp only [tickActive, hm, hsv, hsh, hcl, hcm, hdg, hcp, hfp, hdrag]
  rfl

lemma workerTick_pure_move (scr : Screen) (st : WorkerState) (snap : Snap)
    (now : Int) (ws : Bool) (dSign : Int × Int)
    (h : pureMoveSnap snap dSign ws)
    (hsign : ¬(dSign.1 = 0 ∧ dSign.2 = 0))
    (hact : st.active = true) (hdrag : st.dragging = false) :
    workerTick scr st snap now
      = (pureMoveNext scr st
           ((stepEffective st.step ws : Int) * dSign.1,
            (stepEffective st.step ws : Int) * dSign.2) ws,
         [Action.moveTo
            (clampX scr
              (st.cursorX + (stepEffective st.step ws : Int) * dSign.1))
            (clampY scr
              (st.cursorY + (stepEffective st.step ws : Int) * dSign.2))]) := by
  obtain ⟨hc, hw, ha, hbt, hpm, hmi, hv, hh2, htab, hcaps, hfk, hs, hdx, hdy,
    hwasd⟩ := h
  rw [workerTick_noCtrl_noAlt scr st snap now hc hw hbt hact ha,
      tickSpeed_noKeys _ snap hpm hmi]
  show tickActive scr
      { st with prevBacktick := false, prevPlus := false, prevMinus := false }
      snap now = _
  rw [tickActive_pure_move scr
      { st with prevBacktick := false, prevPlus := false, prevMinus := false }
      snap now ws dSign hv hh2 htab hcaps hfk hs hdx hdy hwasd hdrag hsign]
  rfl

lemma workerRun_pure_move (scr : Screen) (snap : Snap) (ws : Bool)
    (dSign : Int × Int) (h : pureMoveSnap snap dSign ws)
    (hsign : ¬(dSign.1 = 0 ∧ dSign.2 = 0)) :
    ∀ (N : Nat) (st : WorkerState) (now : Int),
      st.active = true → st.dragging = false →
      (workerRun scr st (List.replicate N (snap, now))).2
        = moveTrace scr (st.cursorX, st.cursorY)
            ((stepEffective st.step ws : Int) * dSign.1,
             (stepEffective st.step ws : Int) * dSign.2) N := by
  intro N
  induction N with
  | zero => intro st now h1 h2; rfl
  | succ n ih =>
    intro st now h1 h2
    rw [List.replicate_succ]
    show (workerRun scr st ((snap, now) :: List.replicate n (snap, now))).2 = _
    unfold workerRun
    rw [workerTick_pure_move scr st snap now ws dSign h hsign h1 h2]
    dsimp only
    rw [ih (pureMoveNext scr st
          ((stepEffective st.step ws : Int) * dSign.1,
           (stepEffective st.step ws : Int) * dSign.2) ws) now h1 h2]
    rfl

lemma moveTrace_length (scr : Screen) (p d : Int × Int) (N : Nat) :
    (moveTrace scr p d N).length = N := by
  induction N generalizing p with
  | zero => rfl
  | succ n ih => simp [moveTrace, ih]

lemma moveTrace_bounds (scr : Screen) (hw : 1 ≤ scr.width)
    (hh : 1 ≤ scr.height) (p d : Int × Int) (N : Nat) :
    ∀ a ∈ moveTrace scr p d N, ∃ x y, a = Action.moveTo x y
      ∧ scr.left ≤ x ∧ x ≤ scr.right ∧ scr.top ≤ y ∧ y ≤ scr.bottom := by
  induction N generalizing p with
  | zero => intro a ha; simp [moveTrace] at ha
  | succ n ih =>
    intro a ha
    rw [moveTrace] at ha
    rcases List.mem_cons.mp ha with h1 | h1
    · refine ⟨_, _, h1, ?_, ?_, ?_, ?_⟩
      · exact le_max_left _ _
      · apply max_le
        · unfold Screen.right; omega
        · exact min_le_left _ _
      · exact le_max_left _ _
      · apply max_le
        · unfold Screen.bottom; omega
        · exact min_le_left _ _
    · exact ih _ a h1

lemma tickToggle_post (s : WorkerState) (snap : Snap)
    (hpost : (if hasKey snap VK_OEM_3 && !s.prevBacktick then !s.active
        else s.active) = true) :
    tickToggle s snap
      = ({ s with active := true, prevBacktick := hasKey snap VK_OEM_3 },
         []) := by
  simp only [tickToggle]
  by_cases h : (hasKey snap VK_OEM_3 && !s.prevBacktick) = true
  · rw [if_pos h] at hpost ⊢
    have hsa : s.active = false := by simpa using hpost
    have hk := h
    simp only [Bool.and_eq_true] at hk
    simp [hsa, hk.1]
  · rw [if_neg h] at hpost ⊢
    simp [hpost]

lemma workerTick_post_noAlt (scr : Screen) (s : WorkerState) (snap : Snap)
    (now : Int) (hctrl : ctrlHeld snap = false) (hwin : winHeld snap = false)
    (hpost : (if hasKey snap VK_OEM_3 && !s.prevBacktick then !s.active
        else s.active) = true)
    (ha : altHeld snap = false) :
    workerTick scr s snap now
      = tickActive scr
          (tickSpeed
            { s with active := true, prevBacktick := hasKey snap VK_OEM_3 }
            snap)
          snap now := by
  simp only [workerTick, tickToggle_post s snap hpost]
  rw [if_neg (by simp [hctrl, hwin])]
  simp [ha, tickSpeed_active]

lemma workerTick_post_alt (scr : Screen) (s : WorkerState) (snap : Snap)
    (now : Int) (hctrl : ctrlHeld snap = false) (hwin : winHeld snap = false)
    (hpost : (if hasKey snap VK_OEM_3 && !s.prevBacktick then !s.active
        else s.active) = true)
    (ha : altHeld snap = true) :
    workerTick scr s snap now
      = ((tickActive scr
            (forceReleaseDrag (tickSpeed
              { s with active := true, prevBacktick := hasKey snap VK_OEM_3 }
              snap)).1
            snap now).1,
         (forceReleaseDrag (tickSpeed
            { s with active := true, prevBacktick := hasKey snap VK_OEM_3 }
            snap)).2
           ++ (tickActive scr
                (forceReleaseDrag (tickSpeed
                  { s with active := true,
                           prevBacktick := hasKey snap VK_OEM_3 }
                  snap)).1
                snap now).2) := by
  simp only [workerTick, tickToggle_post s snap hpost]
  rw [if_neg (by simp [hctrl, hwin])]
  simp [ha, forceReleaseDrag_active, tickSpeed_active]

lemma workerTick_click_count (scr : Screen) (s : WorkerState) (snap : Snap)
    (now : Int)
    (hctrl : ctrlHeld snap = false) (hwin : winHeld snap = false)
    (hpost : (if hasKey snap VK_OEM_3 && !s.prevBacktick then !s.active
        else s.active) = true) :
    countLeftClick (workerTick scr s snap now).2
      = (if clickCond { s with dragging := !(altHeld snap) && s.dragging } snap
         then 1 else 0)
    ∧ (workerTick scr s snap now).1.prevShift = shiftHeld snap := by
  by_cases ha : altHeld snap = true
  · rw [workerTick_post_alt scr s snap now hctrl hwin hpost ha]
    constructor
    · show countLeftClick
        ((forceReleaseDrag (tickSpeed
            { s with active := true, prevBacktick := hasKey snap VK_OEM_3 }
            snap)).2
          ++ (tickActive scr
                (forceReleaseDrag (tickSpeed
                  { s with active := true,
                           prevBacktick := hasKey snap VK_OEM_3 }
                  snap)).1
                snap now).2) = _
      rw [countLeftClick_append, (forceReleaseDrag_counts _).2, tickActive_clicks]
      have he : clickCond
          (forceReleaseDrag (tickSpeed
            { s with active := true, prevBacktick := hasKey snap VK_OEM_3 }
            snap)).1
          snap
          = clickCond { s with dragging := !(altHeld snap) && s.dragging }
              snap := by
        unfold clickCond
        rw [(forceReleaseDrag_trackers _).1, tickSpeed_prevShift,
            forceReleaseDrag_dragging]
        simp [ha]
      rw [he]
      omega
    · exact tickActive_prevShift scr _ snap now
  · have ha' : altHeld snap = false := by simpa using ha
    rw [workerTick_post_noAlt scr s snap now hctrl hwin hpost ha']
    constructor
    · rw [tickActive_clicks]
      have he : clickCond
          (tickSpeed
            { s with active := true, prevBacktick := hasKey snap VK_OEM_3 }
            snap)
          snap
          = clickCond { s with dragging := !(altHeld snap) && s.dragging }
              snap := by
        unfold clickCond
        rw [tickSpeed_prevShift, tickSpeed_dragging]
        simp [ha']
      rw [he]
    · exact tickActive_prevShift scr _ snap now

/-- Claim C9 (confirmed): on a tick that is active after the toggle
evaluation and not in Ctrl/Win passthrough, the number of left clicks
emitted is 1 exactly when Shift shows a rising edge and no movement
key or alias is held and no drag is starting and no drag is active at
the click site (after the Alt force-release), and 0 otherwise; the
tick records the Shift level in the tracker; and consequently, when
Shift was held on this tick, the following tick emits zero clicks
whatever its snapshot (holding Shift across ticks never produces a
second click; only a release, which clears the tracker, re-arms the
edge). -/
theorem claim_C9_shift_click_edge (scr : Screen) (s : WorkerState)
    (snap : Snap) (now : Int)
    (hctrl : ctrlHeld snap = false) (hwin : winHeld snap = false)
    (hpost : (if hasKey snap VK_OEM_3 && !s.prevBacktick then !s.active
        else s.active) = true) :
    countLeftClick (workerTick scr s snap now).2
      = (if clickCond { s with dragging := !(altHeld snap) && s.dragging } snap
         then 1 else 0)
    ∧ (workerTick scr s snap now).1.prevShift = shiftHeld snap
    ∧ (∀ (snap2 : Snap) (now2 : Int), ctrlHeld snap2 = false →
        winHeld snap2 = false → hasKey snap2 VK_OEM_3 = false →
        shiftHeld snap = true →
        countLeftClick
          (workerTick scr (workerTick scr s snap now).1 snap2 now2).2 = 0) := by
  have base := workerTick_click_count scr s snap now hctrl hwin hpost
  refine ⟨base.1, base.2, ?_⟩
  intro snap2 now2 hc2 hw2 hbt2 hs1
  have hact2 : (workerTick scr s snap now).1.active = true := by
    rw [workerTick_active_eq]; exact hpost
  have hpost2 : (if hasKey snap2 VK_OEM_3
        && !(workerTick scr s snap now).1.prevBacktick
      then !(workerTick scr s snap now).1.active
      else (workerTick scr s snap now).1.active) = true := by
    rw [hbt2]; simpa using hact2
  have h2 := (workerTick_click_count scr (workerTick scr s snap now).1
    snap2 now2 hc2 hw2 hpost2).1
  rw [h2]
  have hps : (workerTick scr s snap now).1.prevShift = true := by
    rw [base.2]; exact hs1
  simp [clickCond, hps]

/-- Witness for C9: pressing Shift alone from an idle active state
emits exactly one click, the tracker records the held Shift, and a
second tick with Shift still held emits zero clicks. -/
theorem claim_C9_witness :
    ctrlHeld [VK_LSHIFT] = false ∧ winHeld [VK_LSHIFT] = false
    ∧ (if hasKey [VK_LSHIFT] VK_OEM_3
          && !(initialWorkerState 50 50).prevBacktick
        then !(initialWorkerState 50 50).active
        else (initialWorkerState 50 50).active) = true
    ∧ countLeftClick (workerTick scr0 (initialWorkerState 50 50) [VK_LSHIFT] 0).2
        = 1
    ∧ (workerTick scr0 (initialWorkerState 50 50) [VK_LSHIFT] 0).1.prevShift
        = true
    ∧ countLeftClick (workerTick scr0
        (workerTick scr0 (initialWorkerState 50 50) [VK_LSHIFT] 0).1
        [VK_LSHIFT] 10).2 = 0 := by
  have h := claim_C9_shift_click_edge scr0 (initialWorkerState 50 50)
    [VK_LSHIFT] 0 (by decide) (by decide) (by decide)
  refine ⟨by decide, by decide, by decide, ?_, ?_, ?_⟩
  · rw [h.1]; decide
  · rw [h.2.1]; decide
  · exact h.2.2 [VK_LSHIFT] 10 (by decide) (by decide) (by decide) (by decide)

/-- Counterexample for C1 as stated: one worker tick with Ctrl held
throughout and the plus key pressed still increments Step from 4 to
5, because the speed-adjust edges (src/py.py lines 692-701) are
evaluated before the Ctrl/Win passthrough gate (line 704); the claim
asserts no Step adjustment happens under the gate. -/
theorem claim_C1_counterexample :
    ctrlHeld [VK_CONTROL, VK_OEM_PLUS] = true
    ∧ (initialWorkerState 50 50).step = 4
    ∧ (workerTick scr0 (initialWorkerState 50 50)
        [VK_CONTROL, VK_OEM_PLUS] 0).1.step = 5 := by
  refine ⟨by decide, rfl, by decide⟩

/-- Claim C1 (corrected): while Ctrl or Win is held on every tick,
the worker emits no cursor movement, no click, no scroll and no drag
button-down (every emitted action is the compensating left-button
release of a force-released drag); the backtick toggle stays
effective on those ticks; but speed (Step) adjustment also stays
effective, because it precedes the passthrough gate; and the volume
keys act from the hook on every physical bracket keydown, Ctrl/Win
notwithstanding, and are forwarded. -/
theorem claim_C1_amended (scr : Screen) (s : WorkerState)
    (inputs : List (Snap × Int)) (snap : Snap) (now : Int)
    (hall : ∀ p ∈ inputs, (ctrlHeld p.1 || winHeld p.1) = true)
    (hgate : (ctrlHeld snap || winHeld snap) = true) :
    (∀ a ∈ (workerRun scr s inputs).2, a = Action.leftUp)
    ∧ ((workerTick scr s snap now).1.active
        = if hasKey snap VK_OEM_3 && !s.prevBacktick then !s.active
          else s.active)
    ∧ (s.active = true → hasKey snap VK_OEM_3 = false →
        (hasKey snap VK_OEM_PLUS || hasKey snap VK_ADD) = true →
        s.prevPlus = false →
        (hasKey snap VK_OEM_MINUS || hasKey snap VK_SUBTRACT) = false →
        (workerTick scr s snap now).1.step = min MAX_STEP (s.step + 1))
    ∧ (∀ (hs : HookState) (ev : HookEvent), ev.injected = false →
        0 ≤ ev.nCode → (ev.msg = WM_KEYDOWN ∨ ev.msg = WM_SYSKEYDOWN) →
        ((ev.vk = VK_OEM_4 →
            HookEffect.volumeSet 24 ∈ (hookProc hs ev noFaults).2.1
            ∧ (hookProc hs ev noFaults).2.2 = Decision.forward)
          ∧ (ev.vk = VK_OEM_6 →
            HookEffect.volumeSet 42 ∈ (hookProc hs ev noFaults).2.1
            ∧ (hookProc hs ev noFaults).2.2 = Decision.forward))) := by
  refine ⟨workerRun_ctrl_mem scr s inputs hall,
    workerTick_active_eq scr s snap now, ?_, ?_⟩
  · intro ha hbt hplus hprev hminus
    rw [workerTick_step_ctrl scr s snap now hgate, tickToggle_noKey s snap hbt]
    exact tickSpeed_step_plus _ snap ha hplus hprev hminus
  · intro hs ev hphys hcode hmsg
    have h4 : isScriptKey VK_OEM_4 = false := by decide
    have h6 : isScriptKey VK_OEM_6 = false := by decide
    constructor
    · intro hvk
      have hhit : volBranchHit ev = true := by
        unfold volBranchHit
        rcases hmsg with h | h <;> simp [hphys, hvk, h]
      constructor
      · rw [hookProc_effects_eq hs ev noFaults hcode rfl rfl]
        simp [hhit, hvk, noFaults]
      · rw [hookProc_decision_eq hs ev noFaults hcode rfl rfl]
        unfold hookDecision alwaysBlockKey
        rw [hphys, hvk]
        rw [if_neg (by simp), if_neg (by decide),
            if_neg (by simp [(by decide : (VK_OEM_4 == VK_TAB) = false)]),
            if_neg (by simp [h4])]
    · intro hvk
      have hhit : volBranchHit ev = true := by
        unfold volBranchHit
        rcases hmsg with h | h <;> simp [hphys, hvk, h]
      constructor
      · rw [hookProc_effects_eq hs ev noFaults hcode rfl rfl]
        simp [hhit, hvk, noFaults, (by decide : (VK_OEM_6 == VK_OEM_4) = false)]
      · rw [hookProc_decision_eq hs ev noFaults hcode rfl rfl]
        unfold hookDecision alwaysBlockKey
        rw [hphys, hvk]
        rw [if_neg (by simp), if_neg (by decide),
            if_neg (by simp [(by decide : (VK_OEM_6 == VK_TAB) = false)]),
            if_neg (by simp [h6])]

/-- Witness for C1 amended: a two-tick run with Ctrl held emits
nothing (in particular only left-ups, vacuously), the toggle tick
with Ctrl and backtick flips active off, the Ctrl+plus tick
increments Step, and a physical left-bracket keydown with Ctrl held
sets the volume to 24 and forwards. -/
theorem claim_C1_amended_witness :
    (∀ a ∈ (workerRun scr0 (initialWorkerState 50 50)
        [([VK_CONTROL], 0), ([VK_CONTROL, VK_LSHIFT], 10)]).2,
        a = Action.leftUp)
    ∧ (workerTick scr0 (initialWorkerState 50 50)
        [VK_CONTROL, VK_OEM_3] 0).1.active = false
    ∧ (workerTick scr0 (initialWorkerState 50 50)
        [VK_CONTROL, VK_OEM_PLUS] 0).1.step = 5
    ∧ HookEffect.volumeSet 24
        ∈ (hookProc c7State evVolDown noFaults).2.1
    ∧ (hookProc c7State evVolDown noFaults).2.2 = Decision.forward := by
  have h1 := claim_C1_amended scr0 (initialWorkerState 50 50)
    [([VK_CONTROL], 0), ([VK_CONTROL, VK_LSHIFT], 10)] [VK_CONTROL, VK_OEM_3] 0
    (by decide) (by decide)
  have h2 := claim_C1_amended scr0 (initialWorkerState 50 50)
    ([] : List (Snap × Int)) [VK_CONTROL, VK_OEM_PLUS] 0
    (by simp) (by decide)
  have h3 := (h2.2.2.2 c7State evVolDown rfl (by decide) (Or.inl rfl)).1 rfl
  refine ⟨h1.1, ?_, ?_, h3.1, h3.2⟩
  · rw [h1.2.1]; decide
  · rw [h2.2.2.1 rfl (by decide) (by decide) rfl (by decide)]; decide

/-- Counterexample for C2 as stated: left Shift is held across an
off-then-on toggle (backtick pressed on tick 1, released on tick 2,
pressed again on tick 3, Shift never released); on the reactivation
tick the shift-click fires immediately, although the claim says the
action must not fire without a fresh release and press of Shift. -/
theorem claim_C2_counterexample :
    (workerRun scr0 { initialWorkerState 50 50 with prevShift := true }
      [([VK_LSHIFT, VK_OEM_3], 0), ([VK_LSHIFT], 10),
       ([VK_LSHIFT, VK_OEM_3], 20)]).2
      = [Action.leftClick] := by decide

/-- Claim C2 (corrected): a tick that ends inactive (and likewise the
passthrough branch) resets every edge tracker to not-previously-true
and leaves no drag held; consequently a key still held when the
system is toggled active again fires its edge action on the first
active tick - the reset makes the next observation a fresh edge, it
does not suppress it (the code comments: so next press triggers
immediately). Shown for the Shift click: from an inactive state with
clear trackers, one tick holding Shift and the backtick reactivates
the system and emits the click at once, with no release of Shift in
between. -/
theorem claim_C2_amended (scr : Screen) (s : WorkerState) (snap : Snap)
    (now : Int) :
    ((ctrlHeld snap = false) → (winHeld snap = false) →
      ((if hasKey snap VK_OEM_3 && !s.prevBacktick then !s.active
        else s.active) = false) →
      ((workerTick scr s snap now).1.prevShift = false
        ∧ (workerTick scr s snap now).1.prevScrollV = false
        ∧ (workerTick scr s snap now).1.prevScrollH = false
        ∧ (workerTick scr s snap now).1.prevCaps = false
        ∧ (workerTick scr s snap now).1.prevF = false
        ∧ (workerTick scr s snap now).1.dragging = false))
    ∧ (s.active = false → s.prevBacktick = false → s.prevShift = false →
        s.dragging = false →
        countLeftClick (workerTick scr s [VK_LSHIFT, VK_OEM_3] now).2 = 1
        ∧ (workerTick scr s [VK_LSHIFT, VK_OEM_3] now).1.active = true) := by
  constructor
  · intro hctrl hwin hinact
    simp only [workerTick]
    rw [if_neg (by simp [hctrl, hwin])]
    have hact2 : ((if altHeld snap = true
        then forceReleaseDrag (tickSpeed (tickToggle s snap).1 snap)
        else (tickSpeed (tickToggle s snap).1 snap, [])).1).active = false := by
      split_ifs with h
      · rw [forceReleaseDrag_active, tickSpeed_active, tickToggle_active]
        exact hinact
      · show (tickSpeed (tickToggle s snap).1 snap).active = false
        rw [tickSpeed_active, tickToggle_active]
        exact hinact
    rw [if_neg (by simp [hact2])]
    refine ⟨?_, ?_, ?_, ?_, ?_, ?_⟩
    · show (forceReleaseDrag (resetTrackers _)).1.prevShift = false
      rw [(forceReleaseDrag_trackers _).1]; rfl
    · show (forceReleaseDrag (resetTrackers _)).1.prevScrollV = false
      rw [(forceReleaseDrag_trackers _).2.1]; rfl
    · show (forceReleaseDrag (resetTrackers _)).1.prevScrollH = false
      rw [(forceReleaseDrag_trackers _).2.2.1]; rfl
    · show (forceReleaseDrag (resetTrackers _)).1.prevCaps = false
      rw [(forceReleaseDrag_trackers _).2.2.2.1]; rfl
    · show (forceReleaseDrag (resetTrackers _)).1.prevF = false
      rw [(forceReleaseDrag_trackers _).2.2.2.2]; rfl
    · show (forceReleaseDrag (resetTrackers _)).1.dragging = false
      rw [forceReleaseDrag_dragging]
  · intro hinactive hpb hps hdrag
    constructor
    · simp [workerTick, tickToggle, tickSpeed, tickActive, movePhase,
        scrollVPhase, scrollHPhase, clickActs, shiftScrollCommit, dragPhase,
        capsPhase, fPhase, tickDx, tickDy, startDragCond, scrollDirV,
        scrollDirH, wasdOrArrowsHeld, effW, effA, effS, effD, hasKey,
        ctrlHeld, winHeld, altHeld, shiftHeld, hinactive, hpb, hps, hdrag,
        countLeftClick, countLeftClick_append,
        VK_W, VK_A, VK_S, VK_D, VK_LSHIFT, VK_RSHIFT, VK_LCONTROL,
        VK_RCONTROL, VK_CONTROL, VK_LMENU, VK_RMENU, VK_MENU, VK_TAB,
        VK_1, VK_2, VK_NUMPAD1, VK_NUMPAD2, VK_3, VK_4, VK_NUMPAD3,
        VK_NUMPAD4, VK_OEM_MINUS, VK_SUBTRACT, VK_OEM_PLUS, VK_ADD,
        VK_CAPITAL, VK_OEM_3, VK_F, VK_LEFT, VK_UP, VK_RIGHT, VK_DOWN,
        VK_LWIN, VK_RWIN]
    · rw [workerTick_active_eq]
      simp [hasKey, hpb, hinactive]

/-- Witness for C2 amended: from the worker's initial state toggled
off, one tick with Shift and backtick held reactivates and clicks;
and an inactive tick with Shift held resets the Shift tracker. -/
theorem claim_C2_amended_witness :
    (countLeftClick (workerTick scr0
        { initialWorkerState 50 50 with active := false }
        [VK_LSHIFT, VK_OEM_3] 0).2 = 1
      ∧ (workerTick scr0 { initialWorkerState 50 50 with active := false }
          [VK_LSHIFT, VK_OEM_3] 0).1.active = true)
    ∧ (workerTick scr0
        { initialWorkerState 50 50 with active := false, prevShift := true }
        [VK_LSHIFT] 0).1.prevShift = false := by
  constructor
  · exact (claim_C2_amended scr0
      { initialWorkerState 50 50 with active := false } [VK_LSHIFT, VK_OEM_3]
      0).2 rfl rfl rfl rfl
  · exact ((claim_C2_amended scr0
      { initialWorkerState 50 50 with active := false, prevShift := true }
      [VK_LSHIFT] 0).1 (by decide) (by decide) (by decide)).1

/-- Counterexample for C10 as stated: with both horizontal movement
keys held (A and D, so at least one key is held on the x axis) the
per-tick displacement on that axis is zero, not at least one pixel:
opposing keys cancel and the tick emits no movement at all. -/
theorem claim_C10_counterexample :
    effA [VK_A, VK_D] = true ∧ effD [VK_A, VK_D] = true
    ∧ (workerTick scr0 (initialWorkerState 50 50) [VK_A, VK_D] 0).2 = []
    ∧ (workerTick scr0 (initialWorkerState 50 50)
        [VK_A, VK_D] 0).1.cursorX = 50 := by
  refine ⟨by decide, by decide, by decide, by decide⟩

/-- Claim C10 (corrected): the effective step of a tick is
max(1, round(Step * multiplier)) and hence at least one pixel, so
whenever the keys held on an axis resolve to a nonzero direction
(exactly one of the two opposing groups is down), the per-tick delta
on that axis has magnitude equal to the effective step, at least 1 -
Shift-slowed movement never stalls to zero even at the minimum Step
of 1; and a nonzero delta always produces exactly one clamped move
emission. Opposing keys cancel, so the delta can be zero when both
directions of an axis are held. -/
theorem claim_C10_amended :
    (∀ (step : Nat) (shift : Bool), 1 ≤ stepEffective step shift)
    ∧ (∀ (s : WorkerState) (snap : Snap),
        ((effD snap = true ∧ effA snap = false)
          ∨ (effA snap = true ∧ effD snap = false)) →
        (tickDx s snap).natAbs = stepEffective s.step (shiftHeld snap)
          ∧ 1 ≤ (tickDx s snap).natAbs)
    ∧ (∀ (s : WorkerState) (snap : Snap),
        ((effS snap = true ∧ effW snap = false)
          ∨ (effW snap = true ∧ effS snap = false)) →
        (tickDy s snap).natAbs = stepEffective s.step (shiftHeld snap)
          ∧ 1 ≤ (tickDy s snap).natAbs)
    ∧ (∀ (scr : Screen) (s : WorkerState) (snap : Snap),
        tickDx s snap ≠ 0 ∨ tickDy s snap ≠ 0 →
        (movePhase scr s snap).2
          = [Action.moveTo (clampX scr (s.cursorX + tickDx s snap))
              (clampY scr (s.cursorY + tickDy s snap))]) := by
  have hse : ∀ (step : Nat) (shift : Bool), 1 ≤ stepEffective step shift :=
    fun step shift => le_max_left _ _
  refine ⟨hse, ?_, ?_, ?_⟩
  · intro s snap h
    rcases h with ⟨h1, h2⟩ | ⟨h1, h2⟩ <;>
    · constructor
      · simp [tickDx, h1, h2]
      · rw [show (tickDx s snap).natAbs
            = stepEffective s.step (shiftHeld snap) by simp [tickDx, h1, h2]]
        exact hse _ _
  · intro s snap h
    rcases h with ⟨h1, h2⟩ | ⟨h1, h2⟩ <;>
    · constructor
      · simp [tickDy, h1, h2]
      · rw [show (tickDy s snap).natAbs
            = stepEffective s.step (shiftHeld snap) by simp [tickDy, h1, h2]]
        exact hse _ _
  · intro scr s snap h
    unfold movePhase
    rw [if_pos h]

/-- Witness for C10 amended: with only D held and Shift down at the
minimum Step of 1, the x delta has magnitude 1 (not zero), and the
tick emits one clamped move. -/
theorem claim_C10_amended_witness :
    (effD [VK_D, VK_LSHIFT] = true ∧ effA [VK_D, VK_LSHIFT] = false)
    ∧ (tickDx { initialWorkerState 50 50 with step := 1 }
        [VK_D, VK_LSHIFT]).natAbs = 1
    ∧ (movePhase scr0 { initialWorkerState 50 50 with step := 1 }
        [VK_D, VK_LSHIFT]).2 = [Action.moveTo 51 50] := by
  have h2 := claim_C10_amended.2.1
    { initialWorkerState 50 50 with step := 1 } [VK_D, VK_LSHIFT]
    (Or.inl (by decide))
  have h4 := claim_C10_amended.2.2.2 scr0
    { initialWorkerState 50 50 with step := 1 } [VK_D, VK_LSHIFT]
    (Or.inl (by decide))
  refine ⟨by decide, ?_, ?_⟩
  · rw [h2.1]; decide
  · rw [h4]; decide

/-- Counterexample for C3 as stated: at Step = 1 with Shift and D
held for one tick, the claim's per-emission magnitude round(Step *
0.25) is 0 (rounding 0.25 gives 0 under any convention), yet the tick
emits one move displacing the cursor from x = 50 to x = 51, magnitude
1: the code takes max(1, round(Step * 0.25)) (src/py.py line 737),
which the claim omits. -/
theorem claim_C3_counterexample :
    (workerRun scr0 { initialWorkerState 50 50 with step := 1 }
      [([VK_D, VK_LSHIFT], 0)]).2 = [Action.moveTo 51 50]
    ∧ roundQuarterHalfEven 1 = 0
    ∧ (51 : Int) - 50 = 1 := by
  refine ⟨by decide, by decide, by decide⟩

lemma workerRun_single_key (scr : Screen) (vk : Nat) (ws : Bool)
    (hvk : vk ∈ moveKeys) :
    ∀ (N : Nat) (st : WorkerState) (now : Int),
      st.active = true → st.dragging = false →
      (workerRun scr st (List.replicate N (mkSnap vk ws, now))).2
        = moveTrace scr (st.cursorX, st.cursorY)
            ((stepEffective st.step ws : Int) * (moveSign vk).1,
             (stepEffective st.step ws : Int) * (moveSign vk).2) N := by
  have hvk8 : vk = VK_W ∨ vk = VK_A ∨ vk = VK_S ∨ vk = VK_D ∨ vk = VK_UP
      ∨ vk = VK_LEFT ∨ vk = VK_DOWN ∨ vk = VK_RIGHT := by
    simpa [moveKeys] using hvk
  rcases hvk8 with rfl | rfl | rfl | rfl | rfl | rfl | rfl | rfl <;>
    cases ws <;>
    exact workerRun_pure_move scr _ _ _ (by decide) (by decide)

/-- Claim C3 (corrected): holding exactly one movement key (or its
arrow alias), optionally with Shift, for N ticks while active and not
in passthrough produces exactly N movement emissions; each targets
the previous position displaced by the effective step
max(1, round(Step * 0.25)) when Shift is held (Python banker's
rounding) and Step otherwise, along the key's axis, clamped to the
virtual-desktop rectangle; and every emitted position lies inside the
rectangle, so a cursor starting near a boundary never exceeds it. -/
theorem claim_C3_amended (scr : Screen) (s : WorkerState) (vk : Nat)
    (ws : Bool) (N : Nat) (now : Int)
    (hvk : vk ∈ moveKeys) (hact : s.active = true) (hdrag : s.dragging = false)
    (hw : 1 ≤ scr.width) (hh : 1 ≤ scr.height) :
    (workerRun scr s (List.replicate N (mkSnap vk ws, now))).2
      = moveTrace scr (s.cursorX, s.cursorY)
          (moveDelta vk (stepEffective s.step ws)) N
    ∧ (workerRun scr s (List.replicate N (mkSnap vk ws, now))).2.length = N
    ∧ (∀ a ∈ (workerRun scr s (List.replicate N (mkSnap vk ws, now))).2,
        ∃ x y, a = Action.moveTo x y ∧ scr.left ≤ x ∧ x ≤ scr.right
          ∧ scr.top ≤ y ∧ y ≤ scr.bottom) := by
  have hd : ((stepEffective s.step ws : Int) * (moveSign vk).1,
             (stepEffective s.step ws : Int) * (moveSign vk).2)
      = moveDelta vk (stepEffective s.step ws) := by
    have hvk8 : vk = VK_W ∨ vk = VK_A ∨ vk = VK_S ∨ vk = VK_D ∨ vk = VK_UP
        ∨ vk = VK_LEFT ∨ vk = VK_DOWN ∨ vk = VK_RIGHT := by
      simpa [moveKeys] using hvk
    rcases hvk8 with rfl | rfl | rfl | rfl | rfl | rfl | rfl | rfl <;>
      simp [moveSign, moveDelta, mul_one, mul_zero, mul_neg_one,
        VK_W, VK_A, VK_S, VK_D, VK_UP, VK_LEFT, VK_DOWN, VK_RIGHT]
  have htr := workerRun_single_key scr vk ws hvk N s now hact hdrag
  rw [hd] at htr
  refine ⟨htr, ?_, ?_⟩
  · rw [htr, moveTrace_length]
  · rw [htr]
    exact moveTrace_bounds scr hw hh _ _ N

/-- Witness for C3 amended: holding D for two ticks from x = 98 on a
100-wide screen at Step 4 emits two moves, both clamped at the right
edge x = 99. -/
theorem claim_C3_amended_witness :
    VK_D ∈ moveKeys ∧ (1 : Int) ≤ scr0.width ∧ (1 : Int) ≤ scr0.height
    ∧ (initialWorkerState 98 50).active = true
    ∧ (initialWorkerState 98 50).dragging = false
    ∧ (workerRun scr0 (initialWorkerState 98 50)
        (List.replicate 2 (mkSnap VK_D false, 0))).2
      = [Action.moveTo 99 50, Action.moveTo 99 50] := by
  have h := claim_C3_amended scr0 (initialWorkerState 98 50) VK_D false 2 0
    (by decide) rfl rfl (by decide) (by decide)
  refine ⟨by decide, by decide, by decide, rfl, rfl, ?_⟩
  rw [h.1]
  decide

end MouseKeys
